import Mathlib

/-!
Verification of the natural-language specification of the `tasks` repository
(natural-language-to-SQL translation pipeline) against its Python sources
`src/sql_query_generate.py` (class QueryGPT) and `src/sql_reasoning.py`
(class RealTimeDBManager).

The sources are shallowly embedded: Python strings become `String`, the
regular expressions the code uses (all of a restricted shape: literals,
alternations of literals, `\s+`, `\d+`, `\w+`, `.*`) become explicit
searching functions over `List Char` with Python's `re.search` semantics
(leftmost match, greedy quantifiers — for the shapes used here the match is
unique, so an existential scan is equivalent), and the two Python
exceptions the modelled code can raise (`ValueError` for a missing schema,
`UnboundLocalError` for the `current_time` variable read before assignment)
become an `Except PyErr` result.  `datetime.now()` is passed in as an
explicit `now : String` parameter.
-/

/-! ## Character classes (ASCII, as Python's `str.lower`, `\s`, `\d`, `\w` act on the ASCII inputs used here) -/

/-- Python `\s` (ASCII): space, tab, newline, carriage return, vertical tab, form feed. -/
def isPySpace (c : Char) : Bool :=
  c.toNat = 32 || c.toNat = 9 || c.toNat = 10 || c.toNat = 13 || c.toNat = 11 || c.toNat = 12

/-- Python `\d` (ASCII): the characters 0..9. -/
def isDigitCh (c : Char) : Bool :=
  48 ≤ c.toNat && c.toNat ≤ 57

/-- Python `\w` (ASCII): letters, digits and underscore. -/
def isWordCh (c : Char) : Bool :=
  (48 ≤ c.toNat && c.toNat ≤ 57) || (65 ≤ c.toNat && c.toNat ≤ 90) ||
    (97 ≤ c.toNat && c.toNat ≤ 122) || c.toNat = 95

/-- ASCII lower-casing of one character, as Python's `str.lower` acts on ASCII. -/
def toLowerCh (c : Char) : Char :=
  if 65 ≤ c.toNat ∧ c.toNat ≤ 90 then Char.ofNat (c.toNat + 32) else c

/-- ASCII upper-casing of one character, as Python's `str.upper` acts on ASCII. -/
def toUpperCh (c : Char) : Char :=
  if 97 ≤ c.toNat ∧ c.toNat ≤ 122 then Char.ofNat (c.toNat - 32) else c

/-- Python `str.lower()` on ASCII text. -/
def lowerStr (s : String) : String := ⟨s.data.map toLowerCh⟩

/-- Python `str.upper()` on ASCII text. -/
def upperStr (s : String) : String := ⟨s.data.map toUpperCh⟩

/-! ## List and string utilities -/

/-- Boolean list membership by decidable equality (Python `x in xs`). -/
def memB {α : Type} [DecidableEq α] (x : α) : List α → Bool
  | [] => false
  | y :: ys => if x = y then true else memB x ys

/-- Whether `pat` is a prefix of `l`. -/
def listPrefixB : List Char → List Char → Bool
  | [], _ => true
  | _ :: _, [] => false
  | a :: as, b :: bs => if a = b then listPrefixB as bs else false

/-- Whether `pat` occurs as a contiguous sublist of `l` (Python `pat in s` on strings). -/
def hasSubL (pat : List Char) : List Char → Bool
  | [] => pat.isEmpty
  | c :: rest => listPrefixB pat (c :: rest) || hasSubL pat rest

/-- Python `pat in s` for strings: substring containment. -/
def hasSub (s pat : String) : Bool := hasSubL pat.data s.data

/-- Python `str.split()` on whitespace, dropping empty pieces (accumulator holds the
current word reversed). -/
def splitWsAux (cur : List Char) : List Char → List (List Char)
  | [] => if cur.isEmpty then [] else [cur.reverse]
  | c :: cs =>
    if isPySpace c then
      if cur.isEmpty then splitWsAux [] cs else cur.reverse :: splitWsAux [] cs
    else splitWsAux (c :: cur) cs

/-- Python `s.split()` (whitespace, no empty tokens). -/
def splitWsStr (s : String) : List String := (splitWsAux [] s.data).map String.mk

/-- Python `s.split(sep)` for a single separator character (keeps empty pieces). -/
def splitCharAux (sep : Char) (cur : List Char) : List Char → List (List Char)
  | [] => [cur.reverse]
  | c :: cs => if c = sep then cur.reverse :: splitCharAux sep [] cs else splitCharAux sep (c :: cur) cs

/-- Python `s.split('_')` and the like. -/
def splitChar (sep : Char) (s : String) : List String := (splitCharAux sep [] s.data).map String.mk

/-- Python `s.strip()` (ASCII whitespace). -/
def trimStr (s : String) : String :=
  ⟨((s.data.dropWhile isPySpace).reverse.dropWhile isPySpace).reverse⟩

/-- Python `str.join`: `joinSep sep [a, b, c] = a ++ sep ++ b ++ sep ++ c`. -/
def joinSep (sep : String) : List String → String
  | [] => ""
  | [x] => x
  | x :: y :: rest => x ++ sep ++ joinSep sep (y :: rest)

/-- Ordered deduplication, keeping the first occurrence (Python `list(dict.fromkeys(xs))`). -/
def dedupAux (seen : List String) : List String → List String
  | [] => []
  | x :: xs => if memB x seen then dedupAux seen xs else x :: dedupAux (x :: seen) xs

/-- Python `list(dict.fromkeys(xs))`. -/
def dedupFirst (l : List String) : List String := dedupAux [] l

/-- Association-list lookup (Python `d[k]` / `d.get(k)` over an insertion-ordered dict). -/
def lookupStr {α : Type} (k : String) : List (String × α) → Option α
  | [] => none
  | (a, v) :: rest => if a = k then some v else lookupStr k rest

/-- Numeric value of a digit character. -/
def digitVal (c : Char) : Nat := c.toNat - 48

/-- Decimal value of a digit string (Python `int(s)` on the captured `\d+` group). -/
def parseDigits (l : List Char) : Nat := l.foldl (fun a c => 10 * a + digitVal c) 0

/-- Python `str.isdigit()` for the ASCII strings produced here: nonempty and all digits. -/
def pyIsDigitStr (v : String) : Bool := !v.data.isEmpty && v.data.all isDigitCh

/-- Python `s.endswith(c)` for a one-character suffix. -/
def endsWithCh (c : Char) (s : String) : Bool :=
  match s.data.getLast? with
  | some x => x = c
  | none => false

/-- Python `s[:-1]`. -/
def dropLastCh (s : String) : String := ⟨s.data.dropLast⟩

/-! ## Search combinators: Python `re.search` over the restricted pattern shapes the source uses -/

/-- Try `step` at every start position, left to right, returning the first hit
(`re.search`'s leftmost-match rule). -/
def scanSearch {α : Type} (step : List Char → Option α) : List Char → Option α
  | [] => step []
  | c :: rest =>
    match step (c :: rest) with
    | some v => some v
    | none => scanSearch step rest

/-- Boolean variant of `scanSearch`. -/
def scanB (step : List Char → Bool) : List Char → Bool
  | [] => step []
  | c :: rest => step (c :: rest) || scanB step rest

/-- Match `\s+` then continue with `k` (existential over the run length, which is
equivalent to the regex's greedy match for the continuations used here). -/
def wsTailB (k : List Char → Bool) : List Char → Bool
  | [] => false
  | c :: rest => isPySpace c && (k rest || wsTailB k rest)

/-- `Option`-valued variant of `wsTailB`. -/
def wsTailO {α : Type} (k : List Char → Option α) : List Char → Option α
  | [] => none
  | c :: rest =>
    if isPySpace c then
      match k rest with
      | some v => some v
      | none => wsTailO k rest
    else none

/-- Match `.*lit` starting here: Python's `.` does not match a newline. -/
def dotThen (b : List Char) : List Char → Bool
  | [] => listPrefixB b []
  | c :: rest => listPrefixB b (c :: rest) || (!(c = '\n') && dotThen b rest)

/-- `re.search("a.*b", l)` for literals `a`, `b`. -/
def searchPairL (a b : List Char) (l : List Char) : Bool :=
  scanB (fun s => listPrefixB a s && dotThen b (s.drop a.length)) l

/-- `re.search("lit\d+", l)`: the literal followed by at least one digit. -/
def searchLitD (lit : List Char) (l : List Char) : Bool :=
  scanB
    (fun s =>
      listPrefixB lit s &&
        match s.drop lit.length with
        | c :: _ => isDigitCh c
        | [] => false)
    l

/-- The pattern shapes occurring in `_analyze_query`'s alternations: a literal,
`a.*b`, or a literal followed by `\d+`. -/
inductive RPat where
  | lit (p : String)
  | pair (a b : String)
  | litD (p : String)
deriving DecidableEq

/-- `re.search` of one `RPat` against `q` (as one alternative of an alternation:
the alternation matches iff some alternative does). -/
def rMatch (q : String) : RPat → Bool
  | .lit p => hasSub q p
  | .pair a b => searchPairL a.data b.data q.data
  | .litD p => searchLitD p.data q.data

/-! ## The QueryGPT pipeline (src/sql_query_generate.py) -/

namespace QG

/-- The intents `_analyze_query` can assign. -/
inductive Intent where
  | SELECT
  | COUNT
  | AVERAGE
  | SUM
  | MAX
  | MIN
  | DISTINCT
deriving DecidableEq

/-- One column of the schema dict: `{"name": …, "data_type": …, "description": …}`
(missing keys default to the empty string, as the source's `.get(…, "")` does). -/
structure ColumnInfo where
  name : String
  dataType : String
  description : String
deriving DecidableEq

/-- One entry of `relevant_columns`: `{"table": …, "column": …, "data_type": …}`. -/
structure BCol where
  table : String
  column : String
  dataType : String
deriving DecidableEq

/-- One `select_columns` entry: `{"type": "all"}`, `{"type": "column", …}`, or
`{"type": "aggregation", "function", "table", "column", "alias"}`. -/
inductive SelectItem where
  | all
  | col (table column : String)
  | agg (func table column aliasName : String)
deriving DecidableEq

/-- The `"table"` field of a select item (the `"all"` dict carries `""`). -/
def itemTable : SelectItem → String
  | .all => ""
  | .col t _ => t
  | .agg _ t _ _ => t

/-- The `"column"` field of a select item (the `"all"` dict carries `"*"`). -/
def itemColumn : SelectItem → String
  | .all => "*"
  | .col _ c => c
  | .agg _ _ c _ => c

/-- Whether a select item is an aggregation. -/
def isAggItem : SelectItem → Bool
  | .agg _ _ _ _ => true
  | _ => false

/-- One `where_conditions` entry. -/
structure WhereCond where
  table : String
  column : String
  operator : String
  value : String
deriving DecidableEq

/-- One `order_by` entry. -/
structure OrderItem where
  table : String
  column : String
  direction : String
deriving DecidableEq

/-- The `query_components` dict produced by `_determine_query_components`. -/
structure QueryComponents where
  select : List SelectItem
  fromTables : List String
  whereConds : List WhereCond
  groupBy : List (String × String)
  orderBy : List OrderItem
  limit : Option Nat
deriving DecidableEq

/-- The dict returned by `_analyze_query`. -/
structure QueryAnalysis where
  intent : Intent
  hasGrouping : Bool
  hasOrdering : Bool
  orderDirection : String
  hasLimit : Bool
  limitValue : Option Nat
  hasConditions : Bool
  isTimeBased : Bool
  originalQuery : String
deriving DecidableEq

/-- The QueryGPT instance state (the `db_config`/`connection` fields are the
external-collaborator connection handling and are not modelled: the embedding
covers the `db_config = None` path, the one `generate_sql` uses).
`metadata = none` models an empty metadata dict (no `"relationships"` key). -/
structure AgentState where
  schema : List (String × List ColumnInfo)
  tableDescriptions : List (String × String)
  metadata : Option (List (String × String × String))
  recentlyUsedTables : List String
deriving DecidableEq

/-- `QueryGPT.__init__(schema)`: descriptions, metadata and recent tables start empty. -/
def initQueryGPT (schema : List (String × List ColumnInfo)) : AgentState :=
  { schema := schema, tableDescriptions := [], metadata := none, recentlyUsedTables := [] }

/-- `QueryGPT.set_schema`: replaces the schema and rebuilds the description strings. -/
def setSchema (st : AgentState) (schema : List (String × List ColumnInfo)) : AgentState :=
  { st with
    schema := schema
    tableDescriptions :=
      schema.map fun tc =>
        (tc.1, "Table '" ++ tc.1 ++ "' containing columns: " ++ joinSep ", " (tc.2.map (·.name))) }

/-- The exceptions the modelled code can raise. -/
inductive PyErr where
  | valueError (msg : String)
  | unboundLocal (name : String)
deriving DecidableEq

/-- The dict `process_query` returns. -/
structure QResult where
  sql : Option String
  safe : Bool
  explanation : String
  reasoning : String
deriving DecidableEq

/-! ### `_is_unsafe_query` -/

/-- The fixed mutating-keyword list of `_is_unsafe_query`. -/
def unsafeKeywords : List String :=
  ["insert", "update", "delete", "drop", "truncate", "alter", "create",
   "modify", "remove", "destroy", "wipe", "erase"]

/-- `re.search(r"add\s+(?:a\s+)?new", q)`. -/
def addNewSearch (l : List Char) : Bool :=
  scanB
    (fun s =>
      listPrefixB "add".data s &&
        wsTailB
          (fun r =>
            listPrefixB "new".data r ||
              (listPrefixB "a".data r && wsTailB (fun r2 => listPrefixB "new".data r2) (r.drop 1)))
          (s.drop 3))
    l

/-- `re.search(kw + r"\s+(?:all|the)", q)` for the six scope patterns. -/
def kwScopeSearch (kw : String) (l : List Char) : Bool :=
  scanB
    (fun s =>
      listPrefixB kw.data s &&
        wsTailB (fun r => listPrefixB "all".data r || listPrefixB "the".data r) (s.drop kw.length))
    l

/-- The `unsafe_patterns` loop of `_is_unsafe_query`. -/
def unsafePatternHit (l : List Char) : Bool :=
  addNewSearch l || kwScopeSearch "delete" l || kwScopeSearch "remove" l ||
    kwScopeSearch "update" l || kwScopeSearch "modify" l || kwScopeSearch "change" l ||
    kwScopeSearch "drop" l

/-- `QueryGPT._is_unsafe_query`: a mutating keyword as a whitespace-delimited token of
the lower-cased text, or one of the action+scope phrase patterns. -/
def isUnsafeQuery (q : String) : Bool :=
  let ql := lowerStr q
  unsafeKeywords.any (fun kw => memB kw (splitWsStr ql)) || unsafePatternHit ql.data

/-! ### `_analyze_query` -/

/-- The `intent_patterns` dict, in its (insertion-ordered) probe order. -/
def intentPatterns : List (Intent × List RPat) :=
  [(.COUNT, [.lit "how many", .lit "number of", .lit "count of", .lit "total number",
             .pair "how many" "are there", .lit "what is the count"]),
   (.AVERAGE, [.lit "average", .lit "avg", .lit "mean", .lit "typical",
               .lit "what is the average", .pair "calculate" "average"]),
   (.SUM, [.lit "sum", .lit "total", .lit "add up", .lit "combined",
           .lit "what is the total", .pair "calculate" "sum"]),
   (.MAX, [.lit "maximum", .lit "max", .lit "highest", .lit "largest", .lit "most",
           .lit "what is the maximum", .pair "find" "highest"]),
   (.MIN, [.lit "minimum", .lit "min", .lit "lowest", .lit "smallest", .lit "least",
           .lit "what is the minimum", .pair "find" "lowest"]),
   (.DISTINCT, [.lit "unique", .lit "distinct", .lit "different",
                .lit "list of unique", .lit "show distinct"])]

/-- The `for intent_type, patterns in intent_patterns.items()` loop with its `break`:
the first group with a matching phrase wins, the default intent is SELECT. -/
def detectIntent : List (Intent × List RPat) → String → Intent
  | [], _ => .SELECT
  | (i, pats) :: rest, q => if pats.any (rMatch q) then i else detectIntent rest q

/-- The grouping cue alternation. -/
def groupingPats : List RPat :=
  [.lit "group by", .lit "per", .lit "each", .lit "by", .lit "for each",
   .lit "aggregated by", .lit "broken down by"]

/-- The ordering cue alternation. -/
def orderingPats : List RPat :=
  [.lit "order by", .lit "sort by", .lit "sorted by", .lit "arrange by", .lit "rank by",
   .litD "top ", .litD "bottom ", .lit "highest", .lit "lowest", .lit "most", .lit "least",
   .lit "ascending", .lit "descending", .lit "alphabetical"]

/-- The DESC-direction cue alternation. -/
def directionPats : List RPat :=
  [.lit "descending", .lit "highest", .lit "most", .lit "top", .lit "max",
   .lit "maximum", .lit "largest", .lit "greatest"]

/-- The condition-presence cue alternation. -/
def conditionPats : List RPat :=
  [.lit "where", .lit "if", .lit "when", .lit "with", .lit "that have", .lit "that has",
   .lit "greater than", .lit "less than", .lit "equal to", .lit "more than", .lit "fewer than",
   .lit "before", .lit "after", .lit "between", .pair "from" "to", .lit "since", .lit "until",
   .lit "like", .lit "contains", .lit "matches", .lit "starts with", .lit "ends with",
   .lit "in the range", .lit "within", .lit "outside", .lit "excluding", .lit "including"]

/-- The time-sensitivity cue alternation. -/
def timePats : List RPat :=
  [.lit "when", .lit "date", .lit "time", .lit "year", .lit "month", .lit "day",
   .lit "hour", .lit "minute", .lit "second", .lit "week", .lit "quarter", .lit "recent",
   .lit "last", .lit "this", .lit "previous", .lit "next", .lit "current", .lit "past",
   .lit "future", .lit "today", .lit "yesterday", .lit "tomorrow", .lit "monday",
   .lit "tuesday", .lit "wednesday", .lit "thursday", .lit "friday", .lit "saturday",
   .lit "sunday"]

/-- The keyword alternatives of the limit regex
`(?:top|first|last|limit to|show only|display only)\s+(\d+)`. -/
def limitKeywords : List String :=
  ["top", "first", "last", "limit to", "show only", "display only"]

/-- After a limit keyword: `\s+(\d+)` — at least one whitespace character, then the
(greedy, hence maximal) digit run, whose decimal value is the captured integer. -/
def limitAfterKw : List Char → Option Nat
  | [] => none
  | c :: rest =>
    if isPySpace c then
      let r := rest.dropWhile isPySpace
      let ds := r.takeWhile isDigitCh
      if ds.isEmpty then none else some (parseDigits ds)
    else none

/-- One start position of the limit regex: try each keyword alternative in order. -/
def limitStep (l : List Char) : Option Nat :=
  limitKeywords.findSome? fun kw =>
    if listPrefixB kw.data l then limitAfterKw (l.drop kw.data.length) else none

/-- `re.search` of the limit regex: leftmost start position wins; the captured
group's value. -/
def limitSearch (l : List Char) : Option Nat := scanSearch limitStep l

/-- `QueryGPT._analyze_query`. -/
def analyzeQuery (q : String) : QueryAnalysis :=
  let ql := lowerStr q
  let lim := limitSearch ql.data
  { intent := detectIntent intentPatterns ql
    hasGrouping := groupingPats.any (rMatch ql)
    hasOrdering := orderingPats.any (rMatch ql)
    orderDirection := if directionPats.any (rMatch ql) then "DESC" else "ASC"
    hasLimit := lim.isSome
    limitValue := lim
    hasConditions := conditionPats.any (rMatch ql)
    isTimeBased := timePats.any (rMatch ql)
    originalQuery := q }

/-! ### `_identify_schema_elements` -/

/-- Exact table match: the lowered table name (or its singular form when it ends in
`s`) occurs in the lowered question. -/
def tableExactHit (q tl : String) : Bool :=
  hasSub q tl || (endsWithCh 's' tl && hasSub q (dropLastCh tl))

/-- Partial table match: an underscore-delimited word of the name, longer than three
characters, occurs in the question. -/
def tablePartialHit (q tl : String) : Bool :=
  (splitChar '_' tl).any fun w => decide (w.length > 3) && hasSub q w

/-- Description match: some whitespace token of the question occurs in the lowered
description string. -/
def tableDescHit (q desc : String) : Bool :=
  (splitWsStr q).any fun w => hasSub desc w

/-- The first loop of `_identify_schema_elements`: per table in declaration order, an
exact hit selects the table with all its columns (and skips the other probes); else
a partial hit and/or a description hit each append the table. -/
def identifyPhase1 (q : String) (descs : List (String × String)) :
    List (String × List ColumnInfo) → List String × List BCol
  | [] => ([], [])
  | (t, cols) :: rest =>
    let (ts, bs) := identifyPhase1 q descs rest
    let tl := lowerStr t
    if tableExactHit q tl then
      (t :: ts, cols.map (fun c => ⟨t, c.name, c.dataType⟩) ++ bs)
    else
      let p := tablePartialHit q tl
      let d := tableDescHit q (lowerStr ((lookupStr t descs).getD ""))
      ((if p then [t] else []) ++ (if d then [t] else []) ++ ts, bs)

/-- The column-mention fallback: tables owning a column whose lowered name occurs in
the question. -/
def colOwnerTables (q : String) : List (String × List ColumnInfo) → List String
  | [] => []
  | (t, cols) :: rest =>
    (if cols.any (fun c => hasSub q (lowerStr c.name)) then [t] else []) ++ colOwnerTables q rest

/-- The per-column probes of the second loop: exact substring (which short-circuits the
rest), else partial-word, description and LIKE-special probes, each appending. -/
def colMatches (q : String) (t : String) (c : ColumnInfo) : List BCol :=
  let cl := lowerStr c.name
  if hasSub q cl then [⟨t, c.name, c.dataType⟩]
  else
    (if (splitChar '_' cl).any (fun w => decide (w.length > 3) && hasSub q w) then
      [⟨t, c.name, c.dataType⟩] else []) ++
    (if (splitWsStr q).any (fun w => hasSub (lowerStr c.description) w) then
      [⟨t, c.name, c.dataType⟩] else []) ++
    (if hasSub q "like" && (cl = "email" || cl = "name" || cl = "description") then
      [⟨t, c.name, c.dataType⟩] else [])

/-- The second loop of `_identify_schema_elements` over the selected tables. -/
def identifyPhase2 (q : String) (schema : List (String × List ColumnInfo))
    (tables : List String) : List BCol :=
  tables.flatMap fun t => ((lookupStr t schema).getD []).flatMap (colMatches q t)

/-- The last fallback of `_identify_schema_elements`: the first declared table when
the list is still empty and a schema exists. -/
def defaultFirst (schema : List (String × List ColumnInfo)) (t3 : List String) :
    List String :=
  match schema with
  | [] => t3
  | (t0, _) :: _ => if t3.isEmpty then [t0] else t3

/-- `QueryGPT._identify_schema_elements`: (relevant tables, relevant columns).
Fallback chain when no table matched: recently used tables, else column owners;
then ordered dedup; then the first declared table when still empty. -/
def identifySchemaElements (st : AgentState) (origQuery : String) :
    List String × List BCol :=
  let q := lowerStr origQuery
  let pr := identifyPhase1 q st.tableDescriptions st.schema
  let t2 :=
    if pr.1.isEmpty then
      if st.recentlyUsedTables.isEmpty then colOwnerTables q st.schema
      else st.recentlyUsedTables
    else pr.1
  let t4 := defaultFirst st.schema (dedupFirst t2)
  (t4, pr.2 ++ identifyPhase2 q st.schema t4)

/-! ### `_determine_query_components` -/

/-- The aggregate intents. -/
def aggIntents : List Intent := [.COUNT, .AVERAGE, .SUM, .MAX, .MIN]

/-- The aggregate intents that first look for a numeric operand. -/
def numericAggIntents : List Intent := [.AVERAGE, .SUM, .MAX, .MIN]

/-- The numeric data types. -/
def numericTypes : List String := ["integer", "number", "float", "decimal"]

/-- The intent-to-SQL-function dict (only consulted for aggregate intents). -/
def funcName : Intent → String
  | .COUNT => "COUNT"
  | .AVERAGE => "AVG"
  | .SUM => "SUM"
  | .MAX => "MAX"
  | .MIN => "MIN"
  | _ => ""

/-- The select-column construction of `_determine_query_components`. -/
def buildSelect (qa : QueryAnalysis) (columns : List BCol) : List SelectItem :=
  if memB qa.intent aggIntents then
    match columns with
    | [] => [.agg "COUNT" "" "*" "count"]
    | c0 :: _ =>
      let numFound :=
        if memB qa.intent numericAggIntents then
          columns.find? fun c => memB c.dataType numericTypes
        else none
      let aggCol := numFound.getD c0
      let fn := funcName qa.intent
      [.agg fn aggCol.table aggCol.column (lowerStr fn ++ "_" ++ aggCol.column)]
  else
    match columns with
    | [] => [.all]
    | _ => columns.map fun c => SelectItem.col c.table c.column

/-- Whether a select item aggregates the named column. -/
def isAggOfColumn (colName : String) : SelectItem → Bool
  | .agg _ _ c _ => c = colName
  | _ => false

/-- The GROUP BY construction: every bound column not already an aggregation target. -/
def buildGroupBy (qa : QueryAnalysis) (columns : List BCol) (select : List SelectItem) :
    List (String × String) :=
  if qa.hasGrouping then
    columns.flatMap fun c =>
      if select.any (isAggOfColumn c.column) then [] else [(c.table, c.column)]
  else []

/-- The ORDER BY construction: the first aggregated select item if any, else the first
select item; direction from the analysis. -/
def buildOrderBy (qa : QueryAnalysis) (select : List SelectItem) : List OrderItem :=
  if qa.hasOrdering then
    match select with
    | [] => []
    | s0 :: _ =>
      let oc := (select.filter isAggItem).headD s0
      [⟨itemTable oc, itemColumn oc, qa.orderDirection⟩]
  else []

/-- The date/time data types triggering the special condition rule. -/
def dateTypes : List String := ["timestamp", "date", "datetime"]

/-- The capture class at the end of a condition pattern: `(\w+)` or `(\d+)`. -/
inductive CapKind where
  | word
  | digits
deriving DecidableEq

/-- The (greedy, hence maximal) captured run. -/
def capTake : CapKind → List Char → List Char
  | .word, l => l.takeWhile isWordCh
  | .digits, l => l.takeWhile isDigitCh

/-- `\s+(…+)`: at least one whitespace character, then a nonempty capture. -/
def capAfterWs (cap : CapKind) : List Char → Option String
  | [] => none
  | c :: rest =>
    if isPySpace c then
      match (fun r => let t := capTake cap r; if t.isEmpty then none else some (String.mk t)) rest with
      | some v => some v
      | none => capAfterWs cap rest
    else none

/-- The middle literals of a condition pattern, each preceded by `\s+`, then the capture. -/
def chainMids : List String → CapKind → List Char → Option String
  | [], cap, l => capAfterWs cap l
  | m :: ms, cap, l =>
    wsTailO (fun r => if listPrefixB m.data r then chainMids ms cap (r.drop m.data.length) else none) l

/-- One start position of a condition pattern: the column-name literal, then the
middles and capture. -/
def condStep (colName : List Char) (mids : List String) (cap : CapKind)
    (s : List Char) : Option String :=
  if listPrefixB colName s then chainMids mids cap (s.drop colName.length) else none

/-- `re.search(col + "\s+" + mids-joined-by-"\s+" + "\s+(cap)", l)`: the captured value
of the leftmost match. -/
def condSearchL (colName : List Char) (mids : List String) (cap : CapKind)
    (l : List Char) : Option String :=
  scanSearch (condStep colName mids cap) l

/-- The `equality_patterns` list: each yields an `=` condition. The capture class
follows the source: `(\w+)` for is/equals/=, `(\d+)` for the rest. -/
def eqPatterns : List (List String × CapKind) :=
  [(["is"], .word), (["equals"], .word), (["="], .word), (["after"], .digits),
   (["before"], .digits), (["greater than"], .digits), (["less than"], .digits)]

/-- The `gt_patterns` list: each yields a `>` condition. -/
def gtPatterns : List (List String × CapKind) :=
  [(["greater", "than"], .digits), ([">"], .digits), (["more", "than"], .digits)]

/-- The `lt_patterns` list: each yields a `<` condition. -/
def ltPatterns : List (List String × CapKind) :=
  [(["less", "than"], .digits), (["<"], .digits), (["fewer", "than"], .digits)]

/-- The `like_patterns` list: each yields a `LIKE` condition. -/
def likePatterns : List (List String × CapKind) :=
  [(["contains"], .word), (["like"], .word), (["matches"], .word), (["with"], .word)]

/-- Every matching pattern of one group appends one condition with the group's operator. -/
def condsFromPatterns (qt : String) (colLower : String)
    (pats : List (List String × CapKind)) (mk : String → WhereCond) : List WhereCond :=
  pats.flatMap fun p =>
    match condSearchL colLower.data p.1 p.2 qt.data with
    | some v => [mk v]
    | none => []

/-- The body of the per-column condition loop.  `ct` is the function-local
`current_time` variable: `none` while unassigned; the `"before"` branch reads it and
raises `UnboundLocalError` when it was never assigned — exactly the source's slip,
since the variable is only assigned in the `"after"/"since"` branch. -/
def extractCondsForCol (now qt : String) (ct : Option String) (col : BCol) :
    Except PyErr (Option String × List WhereCond) :=
  let cl := lowerStr col.column
  let dres : Except PyErr (Option String × List WhereCond) :=
    if memB col.dataType dateTypes then
      if hasSub qt "after" || hasSub qt "since" then
        .ok (some now, [⟨col.table, col.column, ">", now⟩])
      else if hasSub qt "before" then
        match ct with
        | some t => .ok (ct, [⟨col.table, col.column, "<", t⟩])
        | none => .error (.unboundLocal "current_time")
      else .ok (ct, [])
    else .ok (ct, [])
  match dres with
  | .error e => .error e
  | .ok (ct2, dconds) =>
    let eqs := condsFromPatterns qt cl eqPatterns fun v => ⟨col.table, col.column, "=", v⟩
    let gts := condsFromPatterns qt cl gtPatterns fun v => ⟨col.table, col.column, ">", v⟩
    let lts := condsFromPatterns qt cl ltPatterns fun v => ⟨col.table, col.column, "<", v⟩
    let likes := likePatterns.flatMap fun p =>
      match condSearchL cl.data p.1 p.2 qt.data with
      | some v =>
        let v2 := if cl = "email" && (hasSub qt "gmail" || hasSub qt "yahoo") then
            "%" ++ v ++ "%" else v
        [⟨col.table, col.column, "LIKE", v2⟩]
      | none => []
    .ok (ct2, dconds ++ eqs ++ gts ++ lts ++ likes)

/-- The whole condition loop over the bound columns, threading `current_time`. -/
def extractWhere (now qt : String) : List BCol → Option String →
    Except PyErr (List WhereCond)
  | [], _ => .ok []
  | c :: cs, ct =>
    match extractCondsForCol now qt ct c with
    | .error e => .error e
    | .ok (ct2, conds) =>
      match extractWhere now qt cs ct2 with
      | .error e => .error e
      | .ok rest => .ok (conds ++ rest)

/-- `QueryGPT._determine_query_components`: (query type, components); raises
`UnboundLocalError` on the `"before"`-without-`"after"/"since"` path. -/
def determineQueryComponents (now : String) (qa : QueryAnalysis) (tables : List String)
    (columns : List BCol) : Except PyErr (String × QueryComponents) :=
  let qt := lowerStr qa.originalQuery
  let select := buildSelect qa columns
  let gb := buildGroupBy qa columns select
  let ob := buildOrderBy qa select
  let lim :=
    if qa.hasLimit then
      match qa.limitValue with
      | some v => if v = 0 then none else some v
      | none => none
    else none
  let whereRes := if qa.hasConditions then extractWhere now qt columns none else .ok []
  match whereRes with
  | .error e => .error e
  | .ok wcs =>
    .ok ("SELECT", { select := select, fromTables := tables, whereConds := wcs,
                     groupBy := gb, orderBy := ob, limit := lim })

/-! ### `_generate_sql` -/

/-- One SELECT-clause item. -/
def selectItemStr : SelectItem → String
  | .all => "*"
  | .col t c => (if t = "" then "" else t ++ ".") ++ c
  | .agg f t c a =>
    let tp := if t ≠ "" ∧ c ≠ "*" then t ++ "." else ""
    let base := f ++ "(" ++ tp ++ c ++ ")"
    if a ≠ "" then base ++ " AS " ++ a else base

/-- The first matching relationship for `curr` against the already-placed tables, in
placement order, probing the forward key then the reverse key. -/
def findJoin (rels : List (String × String × String)) :
    List String → String → Option String
  | [], _ => none
  | p :: ps, curr =>
    match lookupStr (p ++ "_" ++ curr) (rels.map fun r => (r.1, r.2)) with
    | some (fc, tc) =>
      some ("\n    JOIN " ++ curr ++ " ON " ++ p ++ "." ++ fc ++ " = " ++ curr ++ "." ++ tc)
    | none =>
      match lookupStr (curr ++ "_" ++ p) (rels.map fun r => (r.1, r.2)) with
      | some (fc, tc) =>
        some ("\n    JOIN " ++ curr ++ " ON " ++ curr ++ "." ++ fc ++ " = " ++ p ++ "." ++ tc)
      | none => findJoin rels ps curr

/-- The join loop over the tables beyond the first; an unknown relationship falls back
to `LEFT JOIN … ON 1=1`. -/
def buildJoins (rels : List (String × String × String)) (placed : List String) :
    List String → String
  | [] => ""
  | t :: ts =>
    ((findJoin rels placed t).getD ("\n    LEFT JOIN " ++ t ++ " ON 1=1")) ++
      buildJoins rels (placed ++ [t]) ts

/-- The FROM clause (an empty table list is unreachable: the source would raise
`IndexError` there, and `fromTables` is never empty when a schema exists). -/
def fromClause (st : AgentState) : List String → String
  | [] => ""
  | [t] => "FROM\n    " ++ t
  | t0 :: t1 :: rest =>
    "FROM\n    " ++ t0 ++
      (match st.metadata with
       | some rels => buildJoins rels [t0] (t1 :: rest)
       | none => (t1 :: rest).foldl (fun acc t => acc ++ "\n    CROSS JOIN " ++ t) "")

/-- Value formatting of a WHERE condition: non-digit strings are quoted, LIKE operands
are wrapped in `%…%`. -/
def fmtCondValue (op v : String) : String :=
  if !pyIsDigitStr v then
    if upperStr op = "LIKE" then "'%" ++ v ++ "%'" else "'" ++ v ++ "'"
  else v

/-- One WHERE condition as text. -/
def condStr (c : WhereCond) : String :=
  (if c.table = "" then "" else c.table ++ ".") ++ c.column ++ " " ++ c.operator ++ " " ++
    fmtCondValue c.operator c.value

/-- The WHERE clause. -/
def whereClause (wcs : List WhereCond) : String :=
  "WHERE\n    " ++ joinSep " AND\n    " (wcs.map condStr)

/-- The GROUP BY clause. -/
def groupClause (gb : List (String × String)) : String :=
  "GROUP BY\n    " ++
    joinSep ",\n    " (gb.map fun p => (if p.1 = "" then "" else p.1 ++ ".") ++ p.2)

/-- One ORDER BY column, substituting the first non-wildcard select column (or `1`)
when ordering by `*`. -/
def orderColStr (select : List SelectItem) (o : OrderItem) : String :=
  let tp := if o.table = "" then "" else o.table ++ "."
  let cn :=
    if o.column = "*" then
      match select with
      | s0 :: _ => if itemColumn s0 ≠ "*" then itemColumn s0 else "1"
      | [] => "1"
    else o.column
  tp ++ cn ++ " " ++ o.direction

/-- The ORDER BY clause. -/
def orderClause (select : List SelectItem) (ob : List OrderItem) : String :=
  "ORDER BY\n    " ++ joinSep ",\n    " (ob.map (orderColStr select))

/-- The `query_parts` list `_generate_sql` builds before joining. -/
def sqlParts (st : AgentState) (comps : QueryComponents) : List String :=
  ["SELECT\n    " ++ joinSep ",\n    " (comps.select.map selectItemStr)] ++
  [fromClause st comps.fromTables] ++
  (if comps.whereConds.isEmpty then [] else [whereClause comps.whereConds]) ++
  (if comps.groupBy.isEmpty then [] else [groupClause comps.groupBy]) ++
  (if comps.orderBy.isEmpty then [] else [orderClause comps.select comps.orderBy]) ++
  (match comps.limit with
   | some n => ["LIMIT " ++ Nat.repr n]
   | none => [])

/-- `QueryGPT._generate_sql`: clause parts joined by newlines, terminated by `;`.
The `queryType` parameter is accepted and unused, as in the source. -/
def generateSql (st : AgentState) (queryType : String) (comps : QueryComponents) : String :=
  joinSep "\n" (sqlParts st comps) ++ ";"

/-! ### `_generate_explanation`, `_generate_reasoning` -/

/-- The operator-to-prose dict (defaulting to the operator itself). -/
def operatorText (op : String) : String :=
  if op = "=" then "equals"
  else if op = ">" then "is greater than"
  else if op = "<" then "is less than"
  else if op = ">=" then "is greater than or equal to"
  else if op = "<=" then "is less than or equal to"
  else if op = "!=" then "is not equal to"
  else op

/-- `QueryGPT._generate_explanation`.  The source builds the text inside
`if query_type == "SELECT"`, and `query_type` is always `"SELECT"`; an empty select
list is unreachable (the source would raise `IndexError`). -/
def generateExplanation (comps : QueryComponents) : String :=
  let base :=
    match comps.select with
    | [] => ""
    | s0 :: _ =>
      match s0 with
      | .all =>
        "This query retrieves all columns from the " ++ joinSep ", " comps.fromTables ++
          " table(s)"
      | .agg f _ c _ =>
        if lowerStr f = "count" ∧ c = "*" then
          "This query counts all rows in the " ++ joinSep ", " comps.fromTables ++ " table(s)"
        else
          "This query calculates the " ++ lowerStr f ++ " of " ++ c ++ " from the " ++
            joinSep ", " comps.fromTables ++ " table(s)"
      | .col _ _ =>
        "This query retrieves " ++ joinSep ", " (comps.select.map itemColumn) ++
          " from the " ++ joinSep ", " comps.fromTables ++ " table(s)"
  let b2 :=
    if comps.whereConds.isEmpty then base
    else
      base ++ " where " ++
        joinSep " and "
          (comps.whereConds.map fun c => c.column ++ " " ++ operatorText c.operator ++ " " ++ c.value)
  let b3 :=
    if comps.groupBy.isEmpty then b2
    else b2 ++ ", grouped by " ++ joinSep ", " (comps.groupBy.map (·.2))
  let b4 :=
    match comps.orderBy with
    | [] => b3
    | o :: _ =>
      b3 ++ ", ordered by " ++ o.column ++ " in " ++
        (if o.direction = "DESC" then "descending" else "ascending") ++ " order"
  let b5 :=
    match comps.limit with
    | some n => b4 ++ ", limited to " ++ Nat.repr n ++ " results"
    | none => b4
  b5 ++ "."

/-- The name of an intent as the source's string. -/
def intentName : Intent → String
  | .SELECT => "SELECT"
  | .COUNT => "COUNT"
  | .AVERAGE => "AVERAGE"
  | .SUM => "SUM"
  | .MAX => "MAX"
  | .MIN => "MIN"
  | .DISTINCT => "DISTINCT"

/-- `QueryGPT._generate_reasoning` (an empty select list is unreachable, as above). -/
def generateReasoning (originalQuery : String) (qa : QueryAnalysis)
    (comps : QueryComponents) : String :=
  let p1 := ["I analyzed the question \"" ++ originalQuery ++
    "\" to understand the user's intent."]
  let p2 :=
    if comps.fromTables.isEmpty then []
    else ["I identified " ++ joinSep ", " comps.fromTables ++
      " as the relevant table(s) based on the question context."]
  let p3 :=
    if memB qa.intent aggIntents then
      ["The question indicates a need for " ++ lowerStr (intentName qa.intent) ++
        " aggregation based on keywords used."]
    else []
  let p4 :=
    match comps.select with
    | [] => []
    | s0 :: _ =>
      match s0 with
      | .all =>
        ["I selected all columns (*) since the question doesn't specify which fields to retrieve."]
      | .agg f _ c _ =>
        if c = "*" then
          ["I used COUNT(*) to count all rows since the question asks for a count of entries."]
        else ["I applied " ++ f ++ " to the " ++ c ++ " column based on the question's intent."]
      | .col _ _ =>
        ["I selected the specific columns " ++ joinSep ", " (comps.select.map itemColumn) ++
          " which are relevant to the question."]
  let p5 :=
    if comps.whereConds.isEmpty then []
    else ["I added " ++ Nat.repr comps.whereConds.length ++
      " filter condition(s) to match the criteria in the question."]
  let p6 :=
    if comps.groupBy.isEmpty then []
    else ["I grouped by " ++ joinSep ", " (comps.groupBy.map (·.2)) ++
      " since the question asks for results organized by these dimensions."]
  let p7 :=
    match comps.orderBy with
    | [] => []
    | o :: _ =>
      ["I ordered results by " ++ o.column ++ " in " ++
        (if o.direction = "DESC" then "descending" else "ascending") ++
        " order as implied by the question."]
  let p8 :=
    match comps.limit with
    | some n =>
      ["I limited results to " ++ Nat.repr n ++
        " rows based on the question's request for a specific number of results."]
    | none => []
  let p9 :=
    ["The query is read-only (SELECT) to ensure data safety and prevent any database modifications.",
     "Parameters should be properly escaped when executing this query to prevent SQL injection."]
  joinSep " " (p1 ++ p2 ++ p3 ++ p4 ++ p5 ++ p6 ++ p7 ++ p8 ++ p9)

/-! ### `process_query` -/

/-- The fixed explanation of the unsafe early return. -/
def unsafeExplanationText : String :=
  "This request appears to involve data modification which is not allowed for safety reasons."

/-- The fixed reasoning of the unsafe early return. -/
def unsafeReasoningText : String :=
  "The request contains terms that suggest data modification (INSERT, UPDATE, DELETE, etc.) which could potentially alter or destroy data."

/-- The analysis, binding and assembly stages composed: the query plan of a question
(the `query_type`/`query_components` pair), or the exception raised on the way. -/
def planOf (now : String) (st : AgentState) (q : String) :
    Except PyErr (String × QueryComponents) :=
  let qa := analyzeQuery q
  let pr := identifySchemaElements st q
  determineQueryComponents now qa pr.1 pr.2

/-- `QueryGPT.process_query` (with `db_config = None`, so no connection attempt):
returns the result dict and the instance state after the call.  A missing schema
raises `ValueError`; an unsafe question returns the fixed refusal with no further
stage run and no state change; otherwise the pipeline runs and
`recently_used_tables` receives the first five bound tables. -/
def processQuery (now : String) (st : AgentState) (q : String) :
    Except PyErr QResult × AgentState :=
  if st.schema.isEmpty then
    (.error (.valueError "Valid schema information is required"), st)
  else if isUnsafeQuery q then
    (.ok { sql := none, safe := false, explanation := unsafeExplanationText,
           reasoning := unsafeReasoningText }, st)
  else
    match planOf now st q with
    | .error e => (.error e, st)
    | .ok (queryType, comps) =>
      (.ok { sql := some (generateSql st queryType comps), safe := true,
             explanation := generateExplanation comps,
             reasoning := generateReasoning q (analyzeQuery q) comps },
       { st with recentlyUsedTables := (identifySchemaElements st q).1.take 5 })

end QG

/-! ## The RealTimeDBManager natural-language front end (src/sql_reasoning.py) -/

namespace RDB

/-- Token kind of `re.findall(r"\b\w+\b|[><=!~]+", s)`: a word-character run or an
operator-character run. -/
inductive TokKind where
  | word
  | op
deriving DecidableEq

/-- The operator characters of the findall pattern. -/
def isOpCh (c : Char) : Bool := memB c ['>', '<', '=', '!', '~']

/-- The kind of one character, or `none` for a separator. -/
def charKind (c : Char) : Option TokKind :=
  if isWordCh c then some .word else if isOpCh c then some .op else none

/-- Emit the pending token. -/
def flushTok : Option (TokKind × List Char) → List (List Char)
  | none => []
  | some (_, acc) => [acc.reverse]

/-- Maximal-run tokenizer equivalent to `re.findall(r"\b\w+\b|[><=!~]+", s)`:
word runs and operator runs, separators dropped. -/
def tokAux : Option (TokKind × List Char) → List Char → List (List Char)
  | cur, [] => flushTok cur
  | cur, c :: cs =>
    match charKind c, cur with
    | none, _ => flushTok cur ++ tokAux none cs
    | some k, none => tokAux (some (k, [c])) cs
    | some k, some (k', acc) =>
      if k = k' then tokAux (some (k', c :: acc)) cs
      else acc.reverse :: tokAux (some (k, [c])) cs

/-- `re.findall(r"\b\w+\b|[><=!~]+", user_input.lower())` as strings. -/
def findallWords (s : String) : List String := (tokAux none (lowerStr s).data).map String.mk

/-- The intents of `_detect_intent`. -/
inductive PIntent where
  | SELECT
  | INSERT
  | UPDATE
  | DELETE
deriving DecidableEq

/-- The parsed shapes `parse_user_input` returns (the `original` field is carried by
the caller and not repeated here; `values` are the bound parameters). -/
inductive ParsedQuery where
  | directSQL (query : String)
  | nlQuery (intent : Option PIntent) (tables : List String) (primaryTable : String)
      (columns : List String) (conditions : List String) (values : List String)
  | schemaList
  | schemaDescribe (table : String)
  | unknown
deriving DecidableEq

/-- The `intent_keywords` dict of `_detect_intent`, in probe order. -/
def pintentKeywords : List (PIntent × List String) :=
  [(.SELECT, ["select", "get", "show", "find", "search", "display", "list", "query",
              "view", "retrieve", "fetch"]),
   (.INSERT, ["insert", "add", "create", "new", "register", "save", "store", "put"]),
   (.UPDATE, ["update", "change", "modify", "edit", "alter", "replace", "set"]),
   (.DELETE, ["delete", "remove", "drop", "clear", "erase", "eliminate"])]

/-- The manager's table metadata: table name to (column name, column type) pairs. -/
def Tables : Type := List (String × List (String × String))

/-- `RealTimeDBManager._detect_intent`: first keyword group hit wins; else SELECT when
some word names a table; else no intent. -/
def detectPIntent (tbls : Tables) (words : List String) : Option PIntent :=
  match pintentKeywords.find? (fun g => g.2.any fun w => memB w words) with
  | some g => some g.1
  | none =>
    if words.any (fun w => (lookupStr w tbls).isSome) then some .SELECT else none

/-- `RealTimeDBManager._extract_tables`: exact word matches, else plural/singular forms. -/
def extractTables (tbls : Tables) (words : List String) : List String :=
  let exact := words.filter fun w => (lookupStr w tbls).isSome
  if exact.isEmpty then
    words.flatMap fun w =>
      if endsWithCh 's' w ∧ (lookupStr (dropLastCh w) tbls).isSome then [dropLastCh w]
      else if (lookupStr (w ++ "s") tbls).isSome then [w ++ "s"]
      else []
  else exact

/-- `RealTimeDBManager._extract_columns`: exact column-name words; `['*']` when none,
or when `all`/`everything`/`*` appears. -/
def extractColumns (tbls : Tables) (words : List String) (table : String) : List String :=
  if table = "" then []
  else
    match lookupStr table tbls with
    | none => []
    | some colpairs =>
      let cols := colpairs.map (·.1)
      let columns := words.filter fun w => memB w cols
      if (["all", "everything"].any fun w => memB w words) || memB "*" words ||
          columns.isEmpty then ["*"]
      else columns

/-- The operator words `_extract_conditions` recognizes. -/
def condOperators : List String :=
  ["=", ">", "<", ">=", "<=", "!=", "like", "contains", "starts", "ends"]

/-- The condition text for one (column, operator) pair. -/
def condFor (col op : String) : String :=
  if op = "contains" || op = "starts" || op = "ends" || op = "like" then col ++ " LIKE ?"
  else col ++ " " ++ op ++ " ?"

/-- The bound value for one (operator, word) pair. -/
def valFor (op v : String) : String :=
  if op = "contains" then "%" ++ v ++ "%"
  else if op = "starts" then v ++ "%"
  else if op = "ends" then "%" ++ v
  else if op = "like" then "%" ++ v ++ "%"
  else v

/-- The sliding-window loop of `_extract_conditions`: a column word followed by an
operator word and a value word consumes three words; otherwise slide by one. -/
def extractCondsW (cols : List String) : List String → List String × List String
  | w0 :: w1 :: w2 :: rest =>
    if memB w0 cols then
      if memB w1 condOperators then
        let (cs, vs) := extractCondsW cols rest
        (condFor w0 w1 :: cs, valFor w1 w2 :: vs)
      else extractCondsW cols (w1 :: w2 :: rest)
    else extractCondsW cols (w1 :: w2 :: rest)
  | _ => ([], [])

/-- `RealTimeDBManager._extract_conditions`. -/
def extractConds (tbls : Tables) (words : List String) (table : String) :
    List String × List String :=
  if table = "" then ([], [])
  else
    match lookupStr table tbls with
    | none => ([], [])
    | some colpairs => extractCondsW (colpairs.map (·.1)) words

/-- The direct-SQL prefixes. -/
def sqlStarters : List String :=
  ["SELECT", "INSERT", "UPDATE", "DELETE", "CREATE", "ALTER", "DROP"]

/-- `RealTimeDBManager.parse_user_input`. -/
def parseUserInput (tbls : Tables) (input : String) : ParsedQuery :=
  let words := findallWords input
  if sqlStarters.any (fun k => listPrefixB k.data (upperStr (trimStr input)).data) then
    .directSQL input
  else
    let intent := detectPIntent tbls words
    match extractTables tbls words with
    | t :: ts =>
      let pair := extractConds tbls words t
      .nlQuery intent (t :: ts) t (extractColumns tbls words t) pair.1 pair.2
    | [] =>
      if ["show", "list", "describe", "schema"].any (fun w => memB w words) then
        if memB "tables" words then .schemaList
        else if ["schema", "structure", "describe"].any (fun w => memB w words) then
          match words.find? (fun w => (lookupStr w tbls).isSome) with
          | some t => .schemaDescribe t
          | none => .unknown
        else .unknown
      else .unknown

/-- The analysis dict `analyze_query` returns: action, prose, and the risk level
string (`none`/`low`/`medium`/`high`/`critical`); the optional fields mirror the
keys only some branches set. -/
structure RExplanation where
  action : String
  explanation : String
  details : String
  riskLevel : String
  query : Option String := none
  params : Option (List String) := none
  needsInput : Option (List String) := none
  queryBase : Option String := none
  conditionParams : Option (List String) := none
deriving DecidableEq

/-- `RealTimeDBManager._conditions_to_text`. -/
def conditionsToText (conditions : List String) : String :=
  joinSep ", "
    (conditions.map fun cond =>
      ((((((cond.replace " LIKE ?" " contains [value]").replace " = ?" " equals [value]").replace
          " > ?" " is greater than [value]").replace " < ?" " is less than [value]").replace
          " >= ?" " is at least [value]").replace " <= ?" " is at most [value]").replace
          " != ?" " is not [value]")

/-- The fixed could-not-understand analysis. -/
def unknownNL : RExplanation :=
  { action := "Unknown", explanation := "Could not understand the query",
    details := "Try rephrasing with clearer table and action words.", riskLevel := "none" }

/-- `RealTimeDBManager.analyze_query`. -/
def ranalyze (tbls : Tables) (pq : ParsedQuery) : RExplanation :=
  match pq with
  | .directSQL q =>
    let stripped := trimStr q
    let firstWord := upperStr (((splitWsStr stripped).headD ""))
    { action := firstWord
      explanation := "Executing raw SQL " ++ firstWord ++ " statement"
      details := "This will be executed exactly as written without any interpretation."
      riskLevel := if memB firstWord ["UPDATE", "DELETE", "DROP", "ALTER"] then "medium" else "low"
      query := some stripped }
  | .nlQuery intent tables _ columns conditions values =>
    match intent, tables with
    | none, _ => unknownNL
    | some _, [] => unknownNL
    | some i, table :: _ =>
      match i with
      | .SELECT =>
        let sqlQuery := "SELECT " ++ joinSep ", " columns ++ " FROM " ++ table ++
          (if conditions.isEmpty then "" else " WHERE " ++ joinSep " AND " conditions)
        { action := "SELECT"
          explanation := "Retrieving data from '" ++ table ++ "'"
          details := "Fetching " ++
            (if columns = ["*"] then "all columns" else joinSep ", " columns) ++ " " ++
            (if conditions.isEmpty then "with no conditions"
             else "where " ++ conditionsToText conditions)
          riskLevel := "low"
          query := some sqlQuery
          params := some values }
      | .INSERT =>
        if columns ≠ [] ∧ columns ≠ ["*"] then
          { action := "INSERT"
            explanation := "Adding new record to '" ++ table ++ "'"
            details := "Will prompt for values for: " ++ joinSep ", " columns
            riskLevel := "low"
            needsInput := some columns }
        else
          let allColumns := ((lookupStr table tbls).getD []).map (·.1)
          { action := "INSERT"
            explanation := "Adding new record to '" ++ table ++ "'"
            details := "Will prompt for values for all columns: " ++ joinSep ", " allColumns
            riskLevel := "low"
            needsInput := some allColumns }
      | .UPDATE =>
        if columns ≠ [] ∧ columns ≠ ["*"] then
          let sqlBase := "UPDATE " ++ table ++ " SET " ++
            joinSep ", " (columns.map fun c => c ++ " = ?") ++
            (if conditions.isEmpty then "" else " WHERE " ++ joinSep " AND " conditions)
          { action := "UPDATE"
            explanation := "Modifying records in '" ++ table ++ "'"
            details := "Will update " ++ joinSep ", " columns ++ " " ++
              (if conditions.isEmpty then "for ALL records"
               else "where " ++ conditionsToText conditions)
            riskLevel := if conditions.isEmpty then "high" else "medium"
            needsInput := some columns
            queryBase := some sqlBase
            conditionParams := some values }
        else
          { action := "UPDATE"
            explanation := "Cannot update table '" ++ table ++ "'"
            details := "Please specify which columns to update"
            riskLevel := "none" }
      | .DELETE =>
        let sqlQuery := "DELETE FROM " ++ table ++
          (if conditions.isEmpty then "" else " WHERE " ++ joinSep " AND " conditions)
        { action := "DELETE"
          explanation := "Removing records from '" ++ table ++ "'"
          details := if conditions.isEmpty then "Will delete ALL records in the table"
            else "Will delete records where " ++ conditionsToText conditions
          riskLevel := if conditions.isEmpty then "critical" else "high"
          query := some sqlQuery
          params := some values }
  | .schemaList =>
    { action := "SCHEMA"
      explanation := "Listing all tables in database"
      details := "Will show structure of " ++ Nat.repr tbls.length ++ " tables"
      riskLevel := "none" }
  | .schemaDescribe table =>
    { action := "SCHEMA"
      explanation := "Describing structure of '" ++ table ++ "'"
      details := "Will show columns, types, keys and sample data"
      riskLevel := "none" }
  | .unknown =>
    { action := "Unknown"
      explanation := "Could not understand the request"
      details := "Try rephrasing or use direct SQL syntax"
      riskLevel := "none" }

end RDB

/-! ## General lemmas about the string machinery -/

deriving instance DecidableEq for Except

theorem memB_iff {α : Type} [DecidableEq α] (x : α) (l : List α) :
    memB x l = true ↔ x ∈ l := by
  induction l with
  | nil => simp [memB]
  | cons y ys ih =>
    by_cases h : x = y
    · simp [memB, h]
    · simp [memB, h, ih]

theorem strDataAppend (a b : String) : (a ++ b).data = a.data ++ b.data := rfl

theorem listPrefixB_self_append (l r : List Char) : listPrefixB l (l ++ r) = true := by
  induction l with
  | nil => simp [listPrefixB]
  | cons c cs ih => simpa [listPrefixB] using ih

theorem hasSubL_nil_pat (l : List Char) : hasSubL [] l = true := by
  induction l with
  | nil => rfl
  | cons c cs ih => simp [hasSubL, listPrefixB]

theorem hasSubL_of_parts (a pat b : List Char) :
    hasSubL pat (a ++ pat ++ b) = true := by
  induction a with
  | nil =>
    cases hp : pat with
    | nil => simpa using hasSubL_nil_pat b
    | cons p ps =>
      simp only [List.nil_append, List.cons_append, hasSubL, listPrefixB, List.append_eq,
        if_true]
      rw [listPrefixB_self_append]
      simp
  | cons c cs ih =>
    have e : (c :: cs) ++ pat ++ b = c :: (cs ++ pat ++ b) := by simp
    rw [e]
    simp only [hasSubL]
    rw [ih]
    simp

theorem hasSubL_exists (pat l : List Char) :
    hasSubL pat l = true ↔ ∃ a b, l = a ++ pat ++ b := by
  constructor
  · intro h
    induction l with
    | nil =>
      simp [hasSubL, List.isEmpty_iff] at h
      exact ⟨[], [], by simp [h]⟩
    | cons c cs ih =>
      simp only [hasSubL, Bool.or_eq_true] at h
      rcases h with h | h
      · -- pat is a prefix of c :: cs
        have : ∃ b, c :: cs = pat ++ b := by
          clear ih
          induction pat generalizing c cs with
          | nil => exact ⟨c :: cs, rfl⟩
          | cons p ps ihp =>
            simp only [listPrefixB] at h
            split at h
            · next heq =>
              cases cs with
              | nil =>
                cases ps with
                | nil => exact ⟨[], by simp [heq]⟩
                | cons _ _ => simp [listPrefixB] at h
              | cons c2 cs2 =>
                obtain ⟨b, hb⟩ := ihp c2 cs2 h
                exact ⟨b, by rw [heq]; simp [hb]⟩
            · exact absurd h (by simp)
        obtain ⟨b, hb⟩ := this
        exact ⟨[], b, by simp [hb]⟩
      · obtain ⟨a, b, hab⟩ := ih h
        exact ⟨c :: a, b, by simp [hab]⟩
  · rintro ⟨a, b, rfl⟩
    exact hasSubL_of_parts a pat b

theorem hasSubL_append_left (pat a b : List Char) (h : hasSubL pat b = true) :
    hasSubL pat (a ++ b) = true := by
  obtain ⟨x, y, rfl⟩ := (hasSubL_exists pat b).mp h
  have : a ++ (x ++ pat ++ y) = (a ++ x) ++ pat ++ y := by simp
  rw [this]
  exact hasSubL_of_parts _ _ _

theorem hasSubL_append_right (pat a b : List Char) (h : hasSubL pat a = true) :
    hasSubL pat (a ++ b) = true := by
  obtain ⟨x, y, rfl⟩ := (hasSubL_exists pat a).mp h
  have : (x ++ pat ++ y) ++ b = x ++ pat ++ (y ++ b) := by simp
  rw [this]
  exact hasSubL_of_parts _ _ _

theorem hasSubL_trans (pat mid l : List Char) (h1 : hasSubL pat mid = true)
    (h2 : hasSubL mid l = true) : hasSubL pat l = true := by
  obtain ⟨a, b, rfl⟩ := (hasSubL_exists mid l).mp h2
  have h3 : hasSubL pat (mid ++ b) = true := hasSubL_append_right pat mid b h1
  have h4 : hasSubL pat (a ++ (mid ++ b)) = true := hasSubL_append_left pat a (mid ++ b) h3
  simpa [List.append_assoc] using h4

theorem takeWhile_all_true (p : Char → Bool) (l : List Char)
    (h : ∀ c ∈ l, p c = true) : l.takeWhile p = l := by
  induction l with
  | nil => rfl
  | cons c cs ih =>
    have := h c (by simp)
    simp [List.takeWhile, this]
    exact fun x hx => h x (by simp [hx])

theorem dropWhile_head_false (p : Char → Bool) (c : Char) (cs : List Char)
    (h : p c = false) : (c :: cs).dropWhile p = c :: cs := by
  simp [List.dropWhile, h]

theorem digit_toNat_le (c : Char) (h : isDigitCh c = true) : c.toNat ≤ 57 := by
  simp only [isDigitCh, Bool.and_eq_true, decide_eq_true_eq] at h
  exact h.2

theorem digit_toNat_ge (c : Char) (h : isDigitCh c = true) : 48 ≤ c.toNat := by
  simp only [isDigitCh, Bool.and_eq_true, decide_eq_true_eq] at h
  exact h.1

theorem ne_digit_of_big (a c : Char) (ha : 57 < a.toNat) (h : isDigitCh c = true) :
    ¬(a = c) := by
  intro he
  subst he
  exact absurd (digit_toNat_le a h) (by omega)

theorem digit_toLower (c : Char) (h : isDigitCh c = true) : toLowerCh c = c := by
  have := digit_toNat_le c h
  unfold toLowerCh
  rw [if_neg]
  omega

theorem map_toLower_digits (d : List Char) (h : ∀ c ∈ d, isDigitCh c = true) :
    d.map toLowerCh = d := by
  induction d with
  | nil => rfl
  | cons c cs ih =>
    simp only [List.map_cons, digit_toLower c (h c (by simp))]
    rw [ih fun x hx => h x (by simp [hx])]

theorem digit_not_space (c : Char) (h : isDigitCh c = true) : isPySpace c = false := by
  have h1 := digit_toNat_le c h
  have h2 := digit_toNat_ge c h
  simp only [isPySpace, Bool.or_eq_false_iff, decide_eq_false_iff_not]
  omega

theorem scanSearch_cons_none {α : Type} (step : List Char → Option α) (c : Char)
    (l : List Char) (h : step (c :: l) = none) :
    scanSearch step (c :: l) = scanSearch step l := by
  simp [scanSearch, h]

theorem scanSearch_cons_some {α : Type} (step : List Char → Option α) (c : Char)
    (l : List Char) (v : α) (h : step (c :: l) = some v) :
    scanSearch step (c :: l) = some v := by
  simp [scanSearch, h]

theorem scanSearch_none_of_digits {α : Type} (step : List Char → Option α)
    (h0 : step [] = none)
    (hd : ∀ (c : Char) (cs : List Char), isDigitCh c = true → step (c :: cs) = none)
    (d : List Char) (hdig : ∀ c ∈ d, isDigitCh c = true) :
    scanSearch step d = none := by
  induction d with
  | nil => simpa [scanSearch] using h0
  | cons c cs ih =>
    rw [scanSearch_cons_none step c cs (hd c cs (hdig c (by simp)))]
    exact ih fun x hx => hdig x (by simp [hx])

theorem scanSearch_skip_heads {α : Type} (step : List Char → Option α) (p0 : Char)
    (prest : List Char)
    (hstep : ∀ s, listPrefixB (p0 :: prest) s = false → step s = none)
    (l1 l2 : List Char) (hne : ∀ c ∈ l1, ¬(c = p0)) :
    scanSearch step (l1 ++ l2) = scanSearch step l2 := by
  induction l1 with
  | nil => rfl
  | cons c cs ih =>
    have hpre : listPrefixB (p0 :: prest) (c :: (cs ++ l2)) = false := by
      simp [listPrefixB]
      intro he
      exact absurd he.symm (hne c (by simp))
    rw [List.cons_append, scanSearch_cons_none step c (cs ++ l2) (hstep _ hpre)]
    exact ih fun x hx => hne x (by simp [hx])

theorem prefix_snoc_digits_false (l : List Char) (c : Char) (hc : isDigitCh c = false)
    (d : List Char) (hd : ∀ x ∈ d, isDigitCh x = true) :
    listPrefixB (l ++ [c]) d = false := by
  induction l generalizing d with
  | nil =>
    cases d with
    | nil => rfl
    | cons x xs =>
      have : ¬(c = x) := by
        intro he
        rw [he] at hc
        rw [hd x (by simp)] at hc
        exact absurd hc (by simp)
      simp [listPrefixB, this]
  | cons a as ih =>
    cases d with
    | nil => rfl
    | cons x xs =>
      by_cases he : a = x
      · simp only [List.cons_append, listPrefixB, if_pos he]
        exact ih xs fun y hy => hd y (by simp [hy])
      · simp [listPrefixB, he]

theorem prefix_snoc_append (l : List Char) (c : Char) (hc : isDigitCh c = false)
    (y d : List Char) (hd : ∀ x ∈ d, isDigitCh x = true) :
    listPrefixB (l ++ [c]) (y ++ d) = listPrefixB (l ++ [c]) y := by
  induction l generalizing y with
  | nil =>
    cases y with
    | nil =>
      simp only [List.nil_append]
      rw [show ([c] : List Char) = [] ++ [c] from rfl, prefix_snoc_digits_false [] c hc d hd]
      rfl
    | cons z zs =>
      by_cases he : c = z
      · simp [listPrefixB, he]
      · simp [listPrefixB, he]
  | cons a as ih =>
    cases y with
    | nil =>
      simp only [List.nil_append]
      rw [prefix_snoc_digits_false (a :: as) c hc d hd]
      rfl
    | cons z zs =>
      by_cases he : a = z
      · simp only [List.cons_append, listPrefixB, if_pos he]
        exact ih zs
      · simp [listPrefixB, he]

theorem hasSubL_snoc_digits (l : List Char) (c : Char) (hc : isDigitCh c = false)
    (d : List Char) (hd : ∀ x ∈ d, isDigitCh x = true) :
    hasSubL (l ++ [c]) d = false := by
  induction d with
  | nil => simp [hasSubL]
  | cons x xs ih =>
    simp only [hasSubL, Bool.or_eq_false_iff]
    constructor
    · exact prefix_snoc_digits_false l c hc (x :: xs) hd
    · exact ih fun y hy => hd y (by simp [hy])

theorem hasSubL_snoc_append (l : List Char) (c : Char) (hc : isDigitCh c = false)
    (pre d : List Char) (hd : ∀ x ∈ d, isDigitCh x = true) :
    hasSubL (l ++ [c]) (pre ++ d) = hasSubL (l ++ [c]) pre := by
  induction pre with
  | nil =>
    simp only [List.nil_append]
    rw [hasSubL_snoc_digits l c hc d hd]
    simp [hasSubL]
  | cons x xs ih =>
    simp only [List.cons_append, hasSubL, List.append_eq]
    rw [ih, ← List.cons_append, prefix_snoc_append l c hc (x :: xs) d hd]

/-! ## Pipeline-level lemmas -/

open QG RDB

theorem extractWhere_ok (now qt : String) (hb : hasSub qt "before" = false) :
    ∀ (cs : List BCol) (ct : Option String), ∃ ws, extractWhere now qt cs ct = .ok ws := by
  intro cs
  induction cs with
  | nil => exact fun ct => ⟨[], rfl⟩
  | cons c rest ih =>
    intro ct
    have hcol : ∃ p, extractCondsForCol now qt ct c = .ok p := by
      unfold extractCondsForCol
      by_cases hdt : memB c.dataType dateTypes = true
      · by_cases ha : (hasSub qt "after" || hasSub qt "since") = true
        · simp [hdt, ha]
        · simp [hdt, ha, hb]
      · simp [hdt]
    obtain ⟨p, hp⟩ := hcol
    obtain ⟨ct2, conds⟩ := p
    obtain ⟨ws, hws⟩ := ih ct2
    exact ⟨conds ++ ws, by simp [extractWhere, hp, hws]⟩

theorem determine_ok_parts (now : String) (qa : QueryAnalysis) (tables : List String)
    (columns : List BCol) (ws : List WhereCond)
    (hws : (if qa.hasConditions then
        extractWhere now (lowerStr qa.originalQuery) columns none else Except.ok []) = .ok ws) :
    determineQueryComponents now qa tables columns =
      .ok ("SELECT",
        { select := buildSelect qa columns
          fromTables := tables
          whereConds := ws
          groupBy := buildGroupBy qa columns (buildSelect qa columns)
          orderBy := buildOrderBy qa (buildSelect qa columns)
          limit :=
            if qa.hasLimit then
              match qa.limitValue with
              | some v => if v = 0 then none else some v
              | none => none
            else none }) := by
  simp only [determineQueryComponents]
  rw [hws]

theorem determine_fromTables (now : String) (qa : QueryAnalysis) (tables : List String)
    (columns : List BCol) (qt : String) (comps : QueryComponents)
    (h : determineQueryComponents now qa tables columns = .ok (qt, comps)) :
    comps.fromTables = tables := by
  cases hws : (if qa.hasConditions = true then
      extractWhere now (lowerStr qa.originalQuery) columns none
    else Except.ok ([] : List WhereCond)) with
  | error e =>
    have hd : determineQueryComponents now qa tables columns = .error e := by
      simp only [determineQueryComponents]
      rw [hws]
    rw [hd] at h
    cases h
  | ok ws =>
    rw [determine_ok_parts now qa tables columns ws hws] at h
    injection h with h1
    injection h1 with ha hb
    cases hb
    rfl

theorem defaultFirst_ne_nil (schema : List (String × List ColumnInfo)) (t3 : List String)
    (hs : schema ≠ []) : defaultFirst schema t3 ≠ [] := by
  cases schema with
  | nil => exact absurd rfl hs
  | cons hd rest =>
    obtain ⟨t0, cols⟩ := hd
    cases t3 with
    | nil => simp [defaultFirst]
    | cons x xs => simp [defaultFirst]

theorem hasSub_joinSep (sep : String) (parts : List String) (x : String)
    (hx : x ∈ parts) : hasSubL x.data (joinSep sep parts).data = true := by
  induction parts with
  | nil => simp at hx
  | cons y rest ih =>
    cases rest with
    | nil =>
      simp at hx
      subst hx
      simpa using hasSubL_of_parts [] x.data []
    | cons z zs =>
      rcases List.mem_cons.mp hx with h | h
      · subst h
        show hasSubL x.data (x ++ sep ++ joinSep sep (z :: zs)).data = true
        rw [strDataAppend, strDataAppend]
        have := hasSubL_of_parts [] x.data (sep.data ++ (joinSep sep (z :: zs)).data)
        simpa [List.append_assoc] using this
      · show hasSubL x.data (y ++ sep ++ joinSep sep (z :: zs)).data = true
        rw [strDataAppend, strDataAppend]
        rw [List.append_assoc]
        exact hasSubL_append_left _ _ _ (hasSubL_append_left _ _ _ (ih h))

theorem generateSql_sub_of_part (st : AgentState) (qt : String) (comps : QueryComponents)
    (part : String) (hmem : part ∈ sqlParts st comps) :
    hasSubL part.data (generateSql st qt comps).data = true := by
  unfold generateSql
  rw [strDataAppend]
  exact hasSubL_append_right _ _ _ (hasSub_joinSep "\n" _ part hmem)

theorem limit_part_mem (st : AgentState) (comps : QueryComponents) (n : Nat)
    (h : comps.limit = some n) : ("LIMIT " ++ Nat.repr n) ∈ sqlParts st comps := by
  unfold sqlParts
  rw [h]
  simp

theorem where_part_mem (st : AgentState) (comps : QueryComponents)
    (h : comps.whereConds ≠ []) : whereClause comps.whereConds ∈ sqlParts st comps := by
  unfold sqlParts
  have : comps.whereConds.isEmpty = false := by
    cases hw : comps.whereConds with
    | nil => exact absurd hw h
    | cons a l => rfl
  rw [this]
  simp

theorem pyIsDigitStr_mk (d : List Char) (h1 : d ≠ []) (h2 : ∀ c ∈ d, isDigitCh c = true) :
    pyIsDigitStr (String.mk d) = true := by
  unfold pyIsDigitStr
  have he : d.isEmpty = false := by
    cases d with
    | nil => exact absurd rfl h1
    | cons a l => rfl
  simp [he, List.all_eq_true]
  exact h2

/-! ## Concrete fixtures used by witnesses and counterexamples -/

/-- A schema containing a `users` table with an integer `id` column. -/
def schemaUsersId : List (String × List ColumnInfo) :=
  [("users", [⟨"id", "integer", "User ID"⟩])]

/-- A schema containing a `users` table with an integer `age` column. -/
def schemaUsersAge : List (String × List ColumnInfo) :=
  [("users", [⟨"age", "integer", ""⟩])]

/-- A schema containing a `users` table with a timestamp `created_at` column. -/
def schemaUsersCreated : List (String × List ColumnInfo) :=
  [("users", [⟨"created_at", "timestamp", ""⟩])]

/-- RealTimeDBManager metadata with a `users` table. -/
def tblsUsers : RDB.Tables := [("users", [("id", "INTEGER")])]

/-- The `sql` field of a successful `process_query` result. -/
def okSql (x : Except PyErr QResult × AgentState) : Option (Option String) :=
  match x.1 with
  | .ok r => some r.sql
  | .error _ => none

/-- The where-conditions of a successfully assembled plan. -/
def okWhere (x : Except PyErr (String × QueryComponents)) : Option (List WhereCond) :=
  match x with
  | .ok p => some p.2.whereConds
  | .error _ => none

/-! ## Claim C1 -/

/-- Claim C1: for every question whose lower-cased text contains a mutating keyword
from the fixed set as a standalone whitespace-delimited token, `process_query` (with a
valid schema) returns `sql = none`, `safe = false` and the fixed explanation and
reasoning strings, and leaves the state untouched — no later pipeline stage runs
(the returned pair is exactly the early-return value). -/
theorem claim_C1_unsafe_keyword_halts (now : String) (st : AgentState) (q kw : String)
    (hs : st.schema ≠ []) (hkw : kw ∈ unsafeKeywords)
    (htok : kw ∈ splitWsStr (lowerStr q)) :
    processQuery now st q =
      (.ok { sql := none, safe := false, explanation := unsafeExplanationText,
             reasoning := unsafeReasoningText }, st) := by
  have hne : st.schema.isEmpty = false := by
    cases hsch : st.schema with
    | nil => exact absurd hsch hs
    | cons a l => rfl
  have hu : isUnsafeQuery q = true := by
    unfold isUnsafeQuery
    have hany : unsafeKeywords.any (fun kw2 => memB kw2 (splitWsStr (lowerStr q))) = true :=
      List.any_eq_true.mpr ⟨kw, hkw, (memB_iff _ _).mpr htok⟩
    simp [hany]
  simp [processQuery, hne, hu]

/-- Witness for C1 at the question "Delete everything". -/
theorem claim_C1_witness :
    processQuery "NOW" (initQueryGPT schemaUsersId) "Delete everything" =
      (.ok { sql := none, safe := false, explanation := unsafeExplanationText,
             reasoning := unsafeReasoningText }, initQueryGPT schemaUsersId) :=
  claim_C1_unsafe_keyword_halts "NOW" (initQueryGPT schemaUsersId) "Delete everything"
    "delete" (by decide) (by decide) (by decide)

/-! ## Claim C2 -/

/-- Counterexample for C2: with no schema supplied, `process_query` raises
`ValueError` rather than returning a null plan with a guidance message. -/
theorem claim_C2_counterexample :
    processQuery "NOW" (initQueryGPT []) "How many users do we have?" =
      (.error (.valueError "Valid schema information is required"), initQueryGPT []) := by
  decide

/-- Claim C2, amended: when no schema has been supplied (the schema is empty/falsy),
`process_query` raises `ValueError("Valid schema information is required")` — the
docstring documents the ValueError — instead of returning a null plan; the state is
unchanged. -/
theorem claim_C2_missing_schema_raises (now : String) (st : AgentState) (q : String)
    (hs : st.schema = []) :
    processQuery now st q =
      (.error (.valueError "Valid schema information is required"), st) := by
  simp [processQuery, hs]

/-- Witness for C2 at a concrete empty-schema call. -/
theorem claim_C2_witness :
    processQuery "NOW" (initQueryGPT []) "hello" =
      (.error (.valueError "Valid schema information is required"), initQueryGPT []) :=
  claim_C2_missing_schema_raises "NOW" (initQueryGPT []) "hello" rfl

/-! ## Claim C7 -/

/-- Claim C7: the write to `recently_used_tables` happens only after a successful safe
translation — whenever the call raises (missing schema, `current_time` slip) or
returns `safe = false`, the instance state is exactly what it was before the call. -/
theorem claim_C7_session_state_unchanged (now : String) (st : AgentState) (q : String)
    (h : ∀ r, (processQuery now st q).1 = .ok r → r.safe = false) :
    (processQuery now st q).2 = st := by
  by_cases h1 : st.schema.isEmpty = true
  · simp [processQuery, h1]
  · by_cases h2 : isUnsafeQuery q = true
    · simp [processQuery, h1, h2]
    · cases hp : planOf now st q with
      | error e => simp [processQuery, h1, h2, hp]
      | ok p =>
        obtain ⟨qt, comps⟩ := p
        exfalso
        have hok : (processQuery now st q).1 =
            .ok { sql := some (generateSql st qt comps), safe := true,
                  explanation := generateExplanation comps,
                  reasoning := generateReasoning q (analyzeQuery q) comps } := by
          simp [processQuery, h1, h2, hp]
        have := h _ hok
        simp at this

/-- Witness for C7 at a refused (unsafe) request. -/
theorem claim_C7_witness :
    (processQuery "NOW" (initQueryGPT schemaUsersId) "drop the users table").2 =
      initQueryGPT schemaUsersId :=
  claim_C7_session_state_unchanged "NOW" (initQueryGPT schemaUsersId)
    "drop the users table"
    (fun r hr => by
      rw [show (processQuery "NOW" (initQueryGPT schemaUsersId) "drop the users table").1 =
          Except.ok { sql := none, safe := false, explanation := unsafeExplanationText,
                      reasoning := unsafeReasoningText } from by decide] at hr
      injection hr with h2
      rw [← h2])

/-! ## Claim C6 -/

/-- Claim C6: whenever the supplied schema is non-empty, the binder's table list is
non-empty (fallback chain: recently-used tables, column owners, first declared
table), and hence any plan that gets assembled has a non-empty from-table list. -/
theorem claim_C6_from_tables_nonempty (now : String) (st : AgentState) (q : String)
    (hs : st.schema ≠ []) :
    (identifySchemaElements st q).1 ≠ [] ∧
      ∀ (qt : String) (comps : QueryComponents),
        planOf now st q = .ok (qt, comps) → comps.fromTables ≠ [] := by
  have h1 : (identifySchemaElements st q).1 ≠ [] := by
    show defaultFirst st.schema _ ≠ []
    exact defaultFirst_ne_nil _ _ hs
  refine ⟨h1, ?_⟩
  intro qt comps h
  simp only [planOf] at h
  have := determine_fromTables now (analyzeQuery q) _ _ qt comps h
  rw [this]
  exact h1

/-- Witness for C6 at a question naming no table or column. -/
theorem claim_C6_witness :
    (identifySchemaElements (initQueryGPT schemaUsersId) "xyzzy qwfp").1 ≠ [] :=
  (claim_C6_from_tables_nonempty "NOW" (initQueryGPT schemaUsersId) "xyzzy qwfp"
    (by decide)).1

/-! ## Claim C8 -/

theorem detectIntent_eq_of_hit (gs : List (Intent × List RPat)) (q : String) :
    ∀ (k : Nat) (hk : k < gs.length),
      ((gs.get ⟨k, hk⟩).2.any (rMatch q) = true) →
      (∀ (j : Nat) (hj : j < k), (gs.get ⟨j, Nat.lt_trans hj hk⟩).2.any (rMatch q) = false) →
      detectIntent gs q = (gs.get ⟨k, hk⟩).1 := by
  induction gs with
  | nil =>
    intro k hk
    simp at hk
  | cons g rest ih =>
    intro k hk hmatch hprior
    obtain ⟨gi, gp⟩ := g
    cases k with
    | zero =>
      simp only [List.get] at hmatch ⊢
      simp [detectIntent, hmatch]
    | succ k2 =>
      have h0 : gp.any (rMatch q) = false := by
        have := hprior 0 (Nat.succ_pos k2)
        simpa using this
      simp only [detectIntent, h0, Bool.false_eq_true, if_false, List.get]
      exact ih k2 (Nat.lt_of_succ_lt_succ hk)
        (by simpa using hmatch)
        (fun j hj => by simpa using hprior (j + 1) (Nat.succ_lt_succ hj))

theorem detectIntent_eq_default (gs : List (Intent × List RPat)) (q : String)
    (h : ∀ g ∈ gs, g.2.any (rMatch q) = false) : detectIntent gs q = .SELECT := by
  induction gs with
  | nil => rfl
  | cons g rest ih =>
    obtain ⟨gi, gp⟩ := g
    have h0 : gp.any (rMatch q) = false := h (gi, gp) (by simp)
    simp only [detectIntent, h0, Bool.false_eq_true, if_false]
    exact ih fun g2 hg2 => h g2 (by simp [hg2])

/-- Claim C8: intent classification probes the pattern groups in the fixed order
COUNT, AVERAGE, SUM, MAX, MIN, DISTINCT (the order of `intentPatterns`); the first
group with a phrase matching the lower-cased question determines the intent, and
when no group matches the intent is SELECT.  Exactly one intent is assigned since
`analyzeQuery` is a function. -/
theorem claim_C8_intent_priority (q : String) :
    (∀ (k : Nat) (hk : k < intentPatterns.length),
      ((intentPatterns.get ⟨k, hk⟩).2.any (rMatch (lowerStr q)) = true) →
      (∀ (j : Nat) (hj : j < k),
        (intentPatterns.get ⟨j, Nat.lt_trans hj hk⟩).2.any (rMatch (lowerStr q)) = false) →
      (analyzeQuery q).intent = (intentPatterns.get ⟨k, hk⟩).1) ∧
    ((∀ g ∈ intentPatterns, g.2.any (rMatch (lowerStr q)) = false) →
      (analyzeQuery q).intent = .SELECT) := by
  constructor
  · intro k hk hmatch hprior
    have he : (analyzeQuery q).intent = detectIntent intentPatterns (lowerStr q) := rfl
    rw [he]
    exact detectIntent_eq_of_hit intentPatterns (lowerStr q) k hk hmatch hprior
  · intro hall
    have he : (analyzeQuery q).intent = detectIntent intentPatterns (lowerStr q) := rfl
    rw [he]
    exact detectIntent_eq_default intentPatterns (lowerStr q) hall

/-- Witness for C8: a COUNT phrase resolves to COUNT (first group), and a question
matching no group defaults to SELECT. -/
theorem claim_C8_witness :
    (analyzeQuery "how many rows").intent = Intent.COUNT ∧
      (analyzeQuery "zzz").intent = Intent.SELECT :=
  ⟨(claim_C8_intent_priority "how many rows").1 0 (by decide) (by decide)
      (fun j hj => absurd hj (Nat.not_lt_zero j)),
    (claim_C8_intent_priority "zzz").2 (by decide)⟩

/-! ## Claim C9 -/

/-- Counterexample for C9: the natural-language question "please update users" parses
to an UPDATE with no conditions (and no explicitly named columns), yet the risk
classifier assigns `none`, not the claimed `high`. -/
theorem claim_C9_counterexample :
    parseUserInput tblsUsers "please update users" =
      .nlQuery (some .UPDATE) ["users"] "users" ["*"] [] [] ∧
    (ranalyze tblsUsers (parseUserInput tblsUsers "please update users")).riskLevel =
      "none" ∧
    (ranalyze tblsUsers (parseUserInput tblsUsers "please update users")).riskLevel ≠
      "high" := by
  decide

/-- Claim C9, amended: the risk classifier maps a parsed natural-language query as
follows.  UPDATE with explicitly named columns: `medium` with conditions, `high`
without; UPDATE with no named columns (columns empty or `['*']`): `none` (the
"cannot update" branch).  DELETE: `high` with conditions, `critical` without.
SELECT: `low`.  Schema commands (list tables, describe table): `none`. -/
theorem claim_C9_risk_mapping_amended (tbls : RDB.Tables) (t : String)
    (ts cols conds vals : List String) :
    (ranalyze tbls (.nlQuery (some .UPDATE) (t :: ts) t cols conds vals)).riskLevel =
      (if cols ≠ [] ∧ cols ≠ ["*"] then (if conds.isEmpty then "high" else "medium")
       else "none") ∧
    (ranalyze tbls (.nlQuery (some .DELETE) (t :: ts) t cols conds vals)).riskLevel =
      (if conds.isEmpty then "critical" else "high") ∧
    (ranalyze tbls (.nlQuery (some .SELECT) (t :: ts) t cols conds vals)).riskLevel =
      "low" ∧
    (ranalyze tbls .schemaList).riskLevel = "none" ∧
    (ranalyze tbls (.schemaDescribe t)).riskLevel = "none" := by
  refine ⟨?_, ?_, ?_, rfl, rfl⟩
  · by_cases hc : cols ≠ [] ∧ cols ≠ ["*"]
    · simp [ranalyze, hc]
    · simp [ranalyze, hc]
  · by_cases hd : conds.isEmpty = true
    · simp [ranalyze, hd]
    · simp [ranalyze, hd]
  · rfl

/-! ## Claim C3 -/

/-- Counterexample for C3: for "How many users do we have?" against a schema with a
`users(id integer)` table, the produced plan aggregates the first bound column —
`COUNT(users.id) AS count_id` — and the rendered text is the multi-line form, not
`SELECT COUNT(*) FROM users;`. -/
theorem claim_C3_counterexample :
    okSql (processQuery "NOW" (initQueryGPT schemaUsersId) "How many users do we have?") =
      some (some "SELECT\n    COUNT(users.id) AS count_id\nFROM\n    users;") ∧
    okSql (processQuery "NOW" (initQueryGPT schemaUsersId) "How many users do we have?") ≠
      some (some "SELECT COUNT(*) FROM users;") ∧
    planOf "NOW" (initQueryGPT schemaUsersId) "How many users do we have?" ≠
      .ok ("SELECT", ⟨[.agg "COUNT" "" "*" "count"], ["users"], [], [], [], none⟩) := by
  refine ⟨by decide, by decide, by decide⟩

/-- Claim C3, amended: for "How many users do we have?" against the schema
`users(id integer)`, the plan's intent is COUNT and its from-list is exactly
`[users]`, but the select list is the aggregation `COUNT(users.id) AS count_id`
(the first bound column, not `COUNT(*)`), the rendered text is
`"SELECT\n    COUNT(users.id) AS count_id\nFROM\n    users;"`, and the risk tier
assigned to the same question by the risk classifier is `low`. -/
theorem claim_C3_scenario_amended :
    (analyzeQuery "How many users do we have?").intent = Intent.COUNT ∧
    planOf "NOW" (initQueryGPT schemaUsersId) "How many users do we have?" =
      .ok ("SELECT",
        ⟨[.agg "COUNT" "users" "id" "count_id"], ["users"], [], [], [], none⟩) ∧
    okSql (processQuery "NOW" (initQueryGPT schemaUsersId) "How many users do we have?") =
      some (some "SELECT\n    COUNT(users.id) AS count_id\nFROM\n    users;") ∧
    (ranalyze tblsUsers (parseUserInput tblsUsers "How many users do we have?")).riskLevel =
      "low" := by
  refine ⟨by decide, by decide, by decide, by decide⟩

/-! ## Claim C4 -/

/-- Claim C4 (code bug): for a bound timestamp column, a question containing
"after"/"since" does append a `>` condition bound to the current timestamp, but a
question containing "before" (without "after"/"since") crashes with
`UnboundLocalError` on `current_time` — the `<` branch reads a variable that is only
assigned in the `>` branch — instead of appending the `<` condition and completing
normally as the claim states. -/
theorem claim_C4_before_branch_crashes :
    processQuery "2024-01-01 00:00:00" (initQueryGPT schemaUsersCreated) "users before" =
      (.error (.unboundLocal "current_time"), initQueryGPT schemaUsersCreated) ∧
    okWhere (planOf "2024-01-01 00:00:00" (initQueryGPT schemaUsersCreated) "users after") =
      some [⟨"users", "created_at", ">", "2024-01-01 00:00:00"⟩] := by
  refine ⟨by decide, by decide⟩

/-! ## Claim C5 -/

/-- Counterexample for C5: the question "users limit 5" contains `limit 5`, yet the
produced plan has no limit and the rendered text does not contain `LIMIT 5` — the
limit regex only recognizes `limit to`, `top`, `first`, `last`, `show only`,
`display only`. -/
theorem claim_C5_counterexample :
    planOf "NOW" (initQueryGPT schemaUsersId) "users limit 5" =
      .ok ("SELECT", ⟨[.col "users" "id"], ["users"], [], [], [], none⟩) ∧
    hasSub (generateSql (initQueryGPT schemaUsersId) "SELECT"
      ⟨[.col "users" "id"], ["users"], [], [], [], none⟩) "LIMIT 5" = false := by
  refine ⟨by decide, by decide⟩

theorem lowerStr_concat_digits (pre : String) (d : List Char)
    (hpre : pre.data.map toLowerCh = pre.data) (hd : ∀ c ∈ d, isDigitCh c = true) :
    (lowerStr (pre ++ String.mk d)).data = pre.data ++ d := by
  show ((pre ++ String.mk d)).data.map toLowerCh = pre.data ++ d
  rw [strDataAppend]
  rw [show (String.mk d).data = d from rfl]
  rw [List.map_append, hpre, map_toLower_digits d hd]

theorem limitStep_u (rest : List Char) : limitStep ('u' :: rest) = none := by
  simp [limitStep, limitKeywords, listPrefixB, List.findSome?]

theorem limitStep_se (rest : List Char) : limitStep ('s' :: 'e' :: rest) = none := by
  simp [limitStep, limitKeywords, listPrefixB, List.findSome?]

theorem limitStep_e (rest : List Char) : limitStep ('e' :: rest) = none := by
  simp [limitStep, limitKeywords, listPrefixB, List.findSome?]

theorem limitStep_r (rest : List Char) : limitStep ('r' :: rest) = none := by
  simp [limitStep, limitKeywords, listPrefixB, List.findSome?]

theorem limitStep_ssp (rest : List Char) : limitStep ('s' :: ' ' :: rest) = none := by
  simp [limitStep, limitKeywords, listPrefixB, List.findSome?]

theorem limitStep_sp (rest : List Char) : limitStep (' ' :: rest) = none := by
  simp [limitStep, limitKeywords, listPrefixB, List.findSome?]

theorem limitSearch_users (d : List Char) (h1 : d ≠ [])
    (h2 : ∀ c ∈ d, isDigitCh c = true) :
    limitSearch ("users limit to ".data ++ d) = some (parseDigits d) := by
  have hdw : d.dropWhile isPySpace = d := by
    cases d with
    | nil => rfl
    | cons c cs => exact dropWhile_head_false _ c cs (digit_not_space c (h2 c (by simp)))
  have htw : d.takeWhile isDigitCh = d := takeWhile_all_true _ d h2
  have hie : d.isEmpty = false := by
    cases d with
    | nil => exact absurd rfl h1
    | cons a l => rfl
  have hstep : limitStep ('l' :: 'i' :: 'm' :: 'i' :: 't' :: ' ' :: 't' :: 'o' :: (' ' :: d)) =
      some (parseDigits d) := by
    simp [limitStep, limitKeywords, listPrefixB, List.findSome?, limitAfterKw, hdw, htw, hie,
      (by decide : isPySpace ' ' = true)]
  show scanSearch limitStep
      ('u' :: 's' :: 'e' :: 'r' :: 's' :: ' ' ::
        ('l' :: 'i' :: 'm' :: 'i' :: 't' :: ' ' :: 't' :: 'o' :: (' ' :: d))) =
    some (parseDigits d)
  rw [scanSearch_cons_none _ _ _ (limitStep_u _)]
  rw [scanSearch_cons_none _ _ _ (limitStep_se _)]
  rw [scanSearch_cons_none _ _ _ (limitStep_e _)]
  rw [scanSearch_cons_none _ _ _ (limitStep_r _)]
  rw [scanSearch_cons_none _ _ _ (limitStep_ssp _)]
  rw [scanSearch_cons_none _ _ _ (limitStep_sp _)]
  rw [scanSearch_cons_some _ _ _ _ hstep]

/-- Claim C5, amended: the limit phrase the analyzer recognizes is
`(top|first|last|limit to|show only|display only)\s+(\d+)`, not a bare `limit N`.
For every nonempty digit string `d` denoting a nonzero number and every agent state,
the question `users limit to d` yields a plan whose limit is exactly the number
denoted by `d`, and the rendered text contains `LIMIT` followed by that number's
decimal rendering. -/
theorem claim_C5_limit_roundtrip_amended (now : String) (st : AgentState) (d : List Char)
    (h1 : d ≠ []) (h2 : ∀ c ∈ d, isDigitCh c = true) (h3 : parseDigits d ≠ 0) :
    ∃ comps,
      planOf now st ("users limit to " ++ String.mk d) = .ok ("SELECT", comps) ∧
      comps.limit = some (parseDigits d) ∧
      hasSub (generateSql st "SELECT" comps) ("LIMIT " ++ Nat.repr (parseDigits d)) = true := by
  have hlow : (lowerStr ("users limit to " ++ String.mk d)).data =
      "users limit to ".data ++ d :=
    lowerStr_concat_digits _ d (by decide) h2
  set q := "users limit to " ++ String.mk d with hqdef
  have hlim : (analyzeQuery q).limitValue = some (parseDigits d) := by
    show limitSearch (lowerStr q).data = some (parseDigits d)
    rw [hlow]
    exact limitSearch_users d h1 h2
  have hhas : (analyzeQuery q).hasLimit = true := by
    show (limitSearch (lowerStr q).data).isSome = true
    rw [hlow, limitSearch_users d h1 h2]
    rfl
  have hbef : hasSub (lowerStr q) "before" = false := by
    show hasSubL "before".data (lowerStr q).data = false
    rw [hlow]
    rw [show "before".data = "befor".data ++ ['e'] from rfl]
    rw [hasSubL_snoc_append _ _ (by decide) _ _ h2]
    decide
  obtain ⟨ws, hws⟩ : ∃ ws, (if (analyzeQuery q).hasConditions = true then
      extractWhere now (lowerStr (analyzeQuery q).originalQuery)
        (identifySchemaElements st q).2 none
    else Except.ok []) = .ok ws := by
    by_cases hc : (analyzeQuery q).hasConditions = true
    · rw [if_pos hc]
      exact extractWhere_ok now (lowerStr (analyzeQuery q).originalQuery) hbef _ none
    · rw [if_neg hc]
      exact ⟨[], rfl⟩
  have hdet := determine_ok_parts now (analyzeQuery q) (identifySchemaElements st q).1
    (identifySchemaElements st q).2 ws hws
  have hlimval :
      (if (analyzeQuery q).hasLimit then
        match (analyzeQuery q).limitValue with
        | some v => if v = 0 then none else some v
        | none => none
      else none) = some (parseDigits d) := by
    rw [hhas, hlim]
    simp [h3]
  refine ⟨{ select := buildSelect (analyzeQuery q) (identifySchemaElements st q).2
            fromTables := (identifySchemaElements st q).1
            whereConds := ws
            groupBy := buildGroupBy (analyzeQuery q) (identifySchemaElements st q).2
              (buildSelect (analyzeQuery q) (identifySchemaElements st q).2)
            orderBy := buildOrderBy (analyzeQuery q)
              (buildSelect (analyzeQuery q) (identifySchemaElements st q).2)
            limit :=
              if (analyzeQuery q).hasLimit then
                match (analyzeQuery q).limitValue with
                | some v => if v = 0 then none else some v
                | none => none
              else none }, ?_, ?_, ?_⟩
  · show planOf now st q = _
    simp only [planOf]
    exact hdet
  · exact hlimval
  · apply generateSql_sub_of_part
    apply limit_part_mem
    exact hlimval

/-- Witness for C5 at `d = "5"`. -/
theorem claim_C5_witness :
    ∃ comps,
      planOf "NOW" (initQueryGPT schemaUsersId) ("users limit to " ++ String.mk ['5']) =
        .ok ("SELECT", comps) ∧
      comps.limit = some (parseDigits ['5']) ∧
      hasSub (generateSql (initQueryGPT schemaUsersId) "SELECT" comps)
        ("LIMIT " ++ Nat.repr (parseDigits ['5'])) = true :=
  claim_C5_limit_roundtrip_amended "NOW" (initQueryGPT schemaUsersId) ['5']
    (by decide) (by decide) (by decide)

/-! ## Claim C10: condition-extraction machinery for `col greater than N` questions -/

theorem listPrefixB_refl (l : List Char) : listPrefixB l l = true := by
  induction l with
  | nil => rfl
  | cons c cs ih => simp [listPrefixB, ih]

theorem hasSubL_self (l : List Char) : hasSubL l l = true := by
  cases l with
  | nil => rfl
  | cons c cs => simp [hasSubL, listPrefixB_refl]

theorem wsTailO_sp_stuck {α : Type} (k : List Char → Option α) (c : Char)
    (rest : List Char) (hc : isPySpace c = false) (hk : k (c :: rest) = none) :
    wsTailO k (' ' :: c :: rest) = none := by
  simp [wsTailO, hk, hc, (by decide : isPySpace ' ' = true)]

theorem wsTailO_sp_some {α : Type} (k : List Char → Option α) (rest : List Char) (v : α)
    (hk : k rest = some v) : wsTailO k (' ' :: rest) = some v := by
  simp [wsTailO, hk, (by decide : isPySpace ' ' = true)]

theorem capAfterWs_digits (d : List Char) (h1 : d ≠ [])
    (h2 : ∀ c ∈ d, isDigitCh c = true) :
    capAfterWs .digits (' ' :: d) = some (String.mk d) := by
  have htw : d.takeWhile isDigitCh = d := takeWhile_all_true _ d h2
  have hie : d.isEmpty = false := by
    cases d with
    | nil => exact absurd rfl h1
    | cons a l => rfl
  simp only [capAfterWs, capTake, (by decide : isPySpace ' ' = true), if_true]
  rw [htw]
  simp [hie]

theorem chainMids_gfail (m : String) (ms : List String) (cap : CapKind)
    (rest : List Char) (hm : listPrefixB m.data ('g' :: rest) = false) :
    chainMids (m :: ms) cap (' ' :: 'g' :: rest) = none := by
  simp only [chainMids]
  exact wsTailO_sp_stuck _ 'g' rest (by decide) (by simp [hm])

theorem chainMids_greater_than (d : List Char) (h1 : d ≠ [])
    (h2 : ∀ c ∈ d, isDigitCh c = true) :
    chainMids ["greater than"] .digits (' ' :: ("greater than ".data ++ d)) =
      some (String.mk d) := by
  simp only [chainMids]
  apply wsTailO_sp_some
  have hpre : listPrefixB "greater than".data ("greater than ".data ++ d) = true := by
    show listPrefixB "greater than".data
      ('g' :: 'r' :: 'e' :: 'a' :: 't' :: 'e' :: 'r' :: ' ' :: 't' :: 'h' :: 'a' :: 'n' ::(' ' :: d)) = true
    simp [listPrefixB]
  rw [hpre]
  simp only [if_true]
  show chainMids [] .digits (' ' :: d) = some (String.mk d)
  simp only [chainMids]
  exact capAfterWs_digits d h1 h2

theorem chainMids_greater_sp_than (d : List Char) (h1 : d ≠ [])
    (h2 : ∀ c ∈ d, isDigitCh c = true) :
    chainMids ["greater", "than"] .digits (' ' :: ("greater than ".data ++ d)) =
      some (String.mk d) := by
  simp only [chainMids]
  apply wsTailO_sp_some
  have hpre : listPrefixB "greater".data ("greater than ".data ++ d) = true := by
    show listPrefixB "greater".data
      ('g' :: 'r' :: 'e' :: 'a' :: 't' :: 'e' :: 'r' :: ' ' :: 't' :: 'h' :: 'a' :: 'n' ::(' ' :: d)) = true
    simp [listPrefixB]
  rw [hpre]
  simp only [if_true]
  show chainMids ["than"] .digits (' ' :: ("than ".data ++ d)) = some (String.mk d)
  simp only [chainMids]
  apply wsTailO_sp_some
  have hpre2 : listPrefixB "than".data ("than ".data ++ d) = true := by
    show listPrefixB "than".data ('t' :: 'h' :: 'a' :: 'n' ::(' ' :: d)) = true
    simp [listPrefixB]
  rw [hpre2]
  simp only [if_true]
  show chainMids [] .digits (' ' :: d) = some (String.mk d)
  simp only [chainMids]
  exact capAfterWs_digits d h1 h2

theorem condStep_none_of_not_prefixed (mids : List String) (cap : CapKind)
    (s : List Char) (hs : listPrefixB "age".data s = false) :
    condStep "age".data mids cap s = none := by
  simp [condStep, hs]

theorem condSearchL_age_shape (mids : List String) (cap : CapKind) (d : List Char)
    (hd : ∀ c ∈ d, isDigitCh c = true) :
    condSearchL "age".data mids cap ("users age greater than ".data ++ d) =
      chainMids mids cap (" greater than ".data ++ d) := by
  unfold condSearchL
  have hfail : ∀ s, listPrefixB ('a' :: "ge".data) s = false →
      condStep "age".data mids cap s = none :=
    fun s hs => condStep_none_of_not_prefixed mids cap s hs
  have hdig : ∀ (c : Char) (cs : List Char), isDigitCh c = true →
      condStep "age".data mids cap (c :: cs) = none := by
    intro c cs hc
    apply condStep_none_of_not_prefixed
    have hne : ¬('a' = c) := ne_digit_of_big 'a' c (by decide) hc
    simp [listPrefixB, hne]
  rw [show "users age greater than ".data ++ d =
      "users ".data ++ ('a' :: 'g' :: 'e' :: (" greater than ".data ++ d)) from rfl]
  rw [scanSearch_skip_heads _ 'a' "ge".data hfail "users ".data _ (by decide)]
  cases hR : chainMids mids cap (" greater than ".data ++ d) with
  | some v =>
    apply scanSearch_cons_some
    have hpre : listPrefixB "age".data
        ('a' :: 'g' :: 'e' :: (" greater than ".data ++ d)) = true := by
      simp [listPrefixB]
    simp only [condStep, hpre, if_true]
    exact hR
  | none =>
    have hmiss1 : condStep "age".data mids cap
        ('a' :: 'g' :: 'e' :: (" greater than ".data ++ d)) = none := by
      have hpre : listPrefixB "age".data
          ('a' :: 'g' :: 'e' :: (" greater than ".data ++ d)) = true := by
        simp [listPrefixB]
      simp only [condStep, hpre, if_true]
      exact hR
    rw [scanSearch_cons_none _ _ _ hmiss1]
    rw [show ('g' :: 'e' :: (" greater than ".data ++ d) : List Char) =
        ['g', 'e', ' ', 'g', 'r', 'e'] ++
          ('a' :: ('t' :: 'e' :: 'r' :: ' ' :: 't' :: 'h' :: 'a' :: 'n' :: ' ' :: d)) from rfl]
    rw [scanSearch_skip_heads _ 'a' "ge".data hfail _ _ (by decide)]
    have hmiss2 : condStep "age".data mids cap
        ('a' :: ('t' :: 'e' :: 'r' :: ' ' :: 't' :: 'h' :: 'a' :: 'n' :: ' ' :: d)) = none := by
      apply condStep_none_of_not_prefixed
      simp [listPrefixB]
    rw [scanSearch_cons_none _ _ _ hmiss2]
    rw [show ('t' :: 'e' :: 'r' :: ' ' :: 't' :: 'h' :: 'a' :: 'n' :: ' ' :: d : List Char) =
        ['t', 'e', 'r', ' ', 't', 'h'] ++ ('a' :: ('n' :: ' ' :: d)) from rfl]
    rw [scanSearch_skip_heads _ 'a' "ge".data hfail _ _ (by decide)]
    have hmiss3 : condStep "age".data mids cap ('a' :: ('n' :: ' ' :: d)) = none := by
      apply condStep_none_of_not_prefixed
      simp [listPrefixB]
    rw [scanSearch_cons_none _ _ _ hmiss3]
    rw [show ('n' :: ' ' :: d : List Char) = ['n', ' '] ++ d from rfl]
    rw [scanSearch_skip_heads _ 'a' "ge".data hfail _ _ (by decide)]
    exact scanSearch_none_of_digits _ (condStep_none_of_not_prefixed mids cap [] rfl) hdig d hd

theorem extractCondsForCol_age (now : String) (d : List Char) (h1 : d ≠ [])
    (h2 : ∀ c ∈ d, isDigitCh c = true) (ct : Option String) :
    extractCondsForCol now (String.mk ("users age greater than ".data ++ d)) ct
      ⟨"users", "age", "integer"⟩ =
      .ok (ct, [⟨"users", "age", "=", String.mk d⟩, ⟨"users", "age", ">", String.mk d⟩]) := by
  have eIs : condSearchL "age".data ["is"] .word ("users age greater than ".data ++ d) = none := by
    rw [condSearchL_age_shape _ _ d h2]
    exact chainMids_gfail "is" [] .word _ (by simp [listPrefixB])
  have eEquals : condSearchL "age".data ["equals"] .word ("users age greater than ".data ++ d) = none := by
    rw [condSearchL_age_shape _ _ d h2]
    exact chainMids_gfail "equals" [] .word _ (by simp [listPrefixB])
  have eEq : condSearchL "age".data ["="] .word ("users age greater than ".data ++ d) = none := by
    rw [condSearchL_age_shape _ _ d h2]
    exact chainMids_gfail "=" [] .word _ (by simp [listPrefixB])
  have eAfter : condSearchL "age".data ["after"] .digits ("users age greater than ".data ++ d) = none := by
    rw [condSearchL_age_shape _ _ d h2]
    exact chainMids_gfail "after" [] .digits _ (by simp [listPrefixB])
  have eBefore : condSearchL "age".data ["before"] .digits ("users age greater than ".data ++ d) = none := by
    rw [condSearchL_age_shape _ _ d h2]
    exact chainMids_gfail "before" [] .digits _ (by simp [listPrefixB])
  have eGT1 : condSearchL "age".data ["greater than"] .digits ("users age greater than ".data ++ d) =
      some (String.mk d) := by
    rw [condSearchL_age_shape _ _ d h2]
    exact chainMids_greater_than d h1 h2
  have eLT1 : condSearchL "age".data ["less than"] .digits ("users age greater than ".data ++ d) = none := by
    rw [condSearchL_age_shape _ _ d h2]
    exact chainMids_gfail "less than" [] .digits _ (by simp [listPrefixB])
  have eGT2 : condSearchL "age".data ["greater", "than"] .digits ("users age greater than ".data ++ d) =
      some (String.mk d) := by
    rw [condSearchL_age_shape _ _ d h2]
    exact chainMids_greater_sp_than d h1 h2
  have eGt : condSearchL "age".data [">"] .digits ("users age greater than ".data ++ d) = none := by
    rw [condSearchL_age_shape _ _ d h2]
    exact chainMids_gfail ">" [] .digits _ (by simp [listPrefixB])
  have eMore : condSearchL "age".data ["more", "than"] .digits ("users age greater than ".data ++ d) = none := by
    rw [condSearchL_age_shape _ _ d h2]
    exact chainMids_gfail "more" ["than"] .digits _ (by simp [listPrefixB])
  have eLess : condSearchL "age".data ["less", "than"] .digits ("users age greater than ".data ++ d) = none := by
    rw [condSearchL_age_shape _ _ d h2]
    exact chainMids_gfail "less" ["than"] .digits _ (by simp [listPrefixB])
  have eLt : condSearchL "age".data ["<"] .digits ("users age greater than ".data ++ d) = none := by
    rw [condSearchL_age_shape _ _ d h2]
    exact chainMids_gfail "<" [] .digits _ (by simp [listPrefixB])
  have eFewer : condSearchL "age".data ["fewer", "than"] .digits ("users age greater than ".data ++ d) = none := by
    rw [condSearchL_age_shape _ _ d h2]
    exact chainMids_gfail "fewer" ["than"] .digits _ (by simp [listPrefixB])
  have eContains : condSearchL "age".data ["contains"] .word ("users age greater than ".data ++ d) = none := by
    rw [condSearchL_age_shape _ _ d h2]
    exact chainMids_gfail "contains" [] .word _ (by simp [listPrefixB])
  have eLike : condSearchL "age".data ["like"] .word ("users age greater than ".data ++ d) = none := by
    rw [condSearchL_age_shape _ _ d h2]
    exact chainMids_gfail "like" [] .word _ (by simp [listPrefixB])
  have eMatches : condSearchL "age".data ["matches"] .word ("users age greater than ".data ++ d) = none := by
    rw [condSearchL_age_shape _ _ d h2]
    exact chainMids_gfail "matches" [] .word _ (by simp [listPrefixB])
  have eWith : condSearchL "age".data ["with"] .word ("users age greater than ".data ++ d) = none := by
    rw [condSearchL_age_shape _ _ d h2]
    exact chainMids_gfail "with" [] .word _ (by simp [listPrefixB])
  simp only [extractCondsForCol, condsFromPatterns, eqPatterns, gtPatterns, ltPatterns,
    likePatterns, List.flatMap_cons, List.flatMap_nil,
    (by decide : memB "integer" dateTypes = false), Bool.false_eq_true, if_false,
    (by decide : lowerStr "age" = "age")]
  rw [show (['u','s','e','r','s',' ','a','g','e',' ','g','r','e','a','t','e','r',' ',
      't','h','a','n',' '] : List Char) = "users age greater than ".data from rfl]
  rw [show (['a','g','e'] : List Char) = "age".data from rfl]
  rw [eIs, eEquals, eEq, eAfter, eBefore, eGT1, eLT1, eGT2, eGt, eMore, eLess, eLt,
    eFewer, eContains, eLike, eMatches, eWith]
  simp

theorem extractWhere_age (now : String) (d : List Char) (h1 : d ≠ [])
    (h2 : ∀ c ∈ d, isDigitCh c = true) :
    extractWhere now (String.mk ("users age greater than ".data ++ d))
      [⟨"users", "age", "integer"⟩, ⟨"users", "age", "integer"⟩] none =
      .ok [⟨"users", "age", "=", String.mk d⟩, ⟨"users", "age", ">", String.mk d⟩,
           ⟨"users", "age", "=", String.mk d⟩, ⟨"users", "age", ">", String.mk d⟩] := by
  have he := extractCondsForCol_age now d h1 h2 none
  simp only [extractWhere, he]
  rfl

theorem identify_age (q10 : String) (d : List Char)
    (hlq : lowerStr q10 = String.mk ("users age greater than ".data ++ d)) :
    identifySchemaElements (initQueryGPT schemaUsersAge) q10 =
      (["users"], [⟨"users", "age", "integer"⟩, ⟨"users", "age", "integer"⟩]) := by
  have husers : hasSub (lowerStr q10) "users" = true := by
    rw [hlq]
    show hasSubL "users".data ("users age greater than ".data ++ d) = true
    exact hasSubL_append_right _ _ _ (by decide)
  have hage : hasSub (lowerStr q10) "age" = true := by
    rw [hlq]
    show hasSubL "age".data ("users age greater than ".data ++ d) = true
    exact hasSubL_append_right _ _ _ (by decide)
  have hhit : tableExactHit (lowerStr q10) (lowerStr "users") = true := by
    unfold tableExactHit
    rw [show lowerStr "users" = "users" from by decide]
    rw [husers]
    rfl
  simp [identifySchemaElements, identifyPhase1, identifyPhase2, colMatches, initQueryGPT,
    schemaUsersAge, hhit, lookupStr, dedupFirst, dedupAux, defaultFirst, memB,
    (by decide : lowerStr "age" = "age"), hage]

/-- The hasConditions flag is set for `… greater than …` questions. -/
theorem hasConditions_gt (q10 : String) (d : List Char)
    (hlq : lowerStr q10 = String.mk ("users age greater than ".data ++ d)) :
    (analyzeQuery q10).hasConditions = true := by
  show conditionPats.any (rMatch (lowerStr q10)) = true
  apply List.any_eq_true.mpr
  refine ⟨.lit "greater than", by decide, ?_⟩
  show hasSub (lowerStr q10) "greater than" = true
  rw [hlq]
  show hasSubL "greater than".data ("users age greater than ".data ++ d) = true
  have : ("users age greater than ".data ++ d) =
      "users age ".data ++ "greater than".data ++ (" ".data ++ d) := by
    simp
  rw [this]
  exact hasSubL_of_parts _ _ _

/-- Claim C10: for a bound integer column `age` whose name is followed in the question
by "greater than" and a number, the extractor appends, per bound column entry, two
conditions with that value — one `=` via the equality-pattern list (which indeed
contains the greater-than phrasing) and one `>` via the greater-than list — and the
rendered WHERE clause contains both `age = N` and `age > N`.  (The column is bound
twice, once by the table's exact match and once by the column probe, so the plan
carries the pair twice.) -/
theorem claim_C10_greater_than_double_condition (now : String) (d : List Char)
    (h1 : d ≠ []) (h2 : ∀ c ∈ d, isDigitCh c = true) :
    extractCondsForCol now (lowerStr ("users age greater than " ++ String.mk d)) none
      ⟨"users", "age", "integer"⟩ =
      .ok (none, [⟨"users", "age", "=", String.mk d⟩,
                  ⟨"users", "age", ">", String.mk d⟩]) ∧
    ∃ comps,
      planOf now (initQueryGPT schemaUsersAge)
          ("users age greater than " ++ String.mk d) = .ok ("SELECT", comps) ∧
      comps.whereConds =
        [⟨"users", "age", "=", String.mk d⟩, ⟨"users", "age", ">", String.mk d⟩,
         ⟨"users", "age", "=", String.mk d⟩, ⟨"users", "age", ">", String.mk d⟩] ∧
      hasSub (generateSql (initQueryGPT schemaUsersAge) "SELECT" comps)
        ("age = " ++ String.mk d) = true ∧
      hasSub (generateSql (initQueryGPT schemaUsersAge) "SELECT" comps)
        ("age > " ++ String.mk d) = true := by
  set q10 := "users age greater than " ++ String.mk d with hq10
  have hdata : (lowerStr q10).data = "users age greater than ".data ++ d :=
    lowerStr_concat_digits _ d (by decide) h2
  have hlq : lowerStr q10 = String.mk ("users age greater than ".data ++ d) :=
    congrArg String.mk hdata
  constructor
  · rw [hlq]
    exact extractCondsForCol_age now d h1 h2 none
  · have hident := identify_age q10 d hlq
    have hconds := hasConditions_gt q10 d hlq
    have hwhere : extractWhere now (lowerStr (analyzeQuery q10).originalQuery)
        (identifySchemaElements (initQueryGPT schemaUsersAge) q10).2 none =
        .ok [⟨"users", "age", "=", String.mk d⟩, ⟨"users", "age", ">", String.mk d⟩,
             ⟨"users", "age", "=", String.mk d⟩, ⟨"users", "age", ">", String.mk d⟩] := by
      rw [hident]
      show extractWhere now (lowerStr q10)
        [⟨"users", "age", "integer"⟩, ⟨"users", "age", "integer"⟩] none = _
      rw [hlq]
      exact extractWhere_age now d h1 h2
    have hws : (if (analyzeQuery q10).hasConditions = true then
        extractWhere now (lowerStr (analyzeQuery q10).originalQuery)
          (identifySchemaElements (initQueryGPT schemaUsersAge) q10).2 none
      else Except.ok []) =
        .ok [⟨"users", "age", "=", String.mk d⟩, ⟨"users", "age", ">", String.mk d⟩,
             ⟨"users", "age", "=", String.mk d⟩, ⟨"users", "age", ">", String.mk d⟩] := by
      rw [if_pos hconds]
      exact hwhere
    have hdet := determine_ok_parts now (analyzeQuery q10)
      (identifySchemaElements (initQueryGPT schemaUsersAge) q10).1
      (identifySchemaElements (initQueryGPT schemaUsersAge) q10).2 _ hws
    have hfmt1 : fmtCondValue "=" (String.mk d) = String.mk d := by
      unfold fmtCondValue
      rw [pyIsDigitStr_mk d h1 h2]
      rfl
    have hfmt2 : fmtCondValue ">" (String.mk d) = String.mk d := by
      unfold fmtCondValue
      rw [pyIsDigitStr_mk d h1 h2]
      rfl
    have hcond1 : condStr ⟨"users", "age", "=", String.mk d⟩ =
        "users." ++ "age" ++ " " ++ "=" ++ " " ++ String.mk d := by
      simp [condStr, hfmt1]
    have hcond2 : condStr ⟨"users", "age", ">", String.mk d⟩ =
        "users." ++ "age" ++ " " ++ ">" ++ " " ++ String.mk d := by
      simp [condStr, hfmt2]
    have hsub1 : hasSubL ("age = " ++ String.mk d).data
        (condStr ⟨"users", "age", "=", String.mk d⟩).data = true := by
      rw [hcond1]
      show hasSubL ("age = " ++ String.mk d).data
        ("users.".data ++ ("age = " ++ String.mk d).data) = true
      exact hasSubL_append_left _ _ _ (hasSubL_self _)
    have hsub2 : hasSubL ("age > " ++ String.mk d).data
        (condStr ⟨"users", "age", ">", String.mk d⟩).data = true := by
      rw [hcond2]
      show hasSubL ("age > " ++ String.mk d).data
        ("users.".data ++ ("age > " ++ String.mk d).data) = true
      exact hasSubL_append_left _ _ _ (hasSubL_self _)
    have hin1 : hasSubL ("age = " ++ String.mk d).data
        (whereClause [⟨"users", "age", "=", String.mk d⟩, ⟨"users", "age", ">", String.mk d⟩,
          ⟨"users", "age", "=", String.mk d⟩, ⟨"users", "age", ">", String.mk d⟩]).data = true := by
      unfold whereClause
      have hj : hasSubL (condStr ⟨"users", "age", "=", String.mk d⟩).data
          (joinSep " AND\n    "
            (List.map condStr
              [⟨"users", "age", "=", String.mk d⟩, ⟨"users", "age", ">", String.mk d⟩,
               ⟨"users", "age", "=", String.mk d⟩, ⟨"users", "age", ">", String.mk d⟩])).data =
          true :=
        hasSub_joinSep _ _ _ (by simp)
      rw [strDataAppend]
      exact hasSubL_append_left _ _ _ (hasSubL_trans _ _ _ hsub1 hj)
    have hin2 : hasSubL ("age > " ++ String.mk d).data
        (whereClause [⟨"users", "age", "=", String.mk d⟩, ⟨"users", "age", ">", String.mk d⟩,
          ⟨"users", "age", "=", String.mk d⟩, ⟨"users", "age", ">", String.mk d⟩]).data = true := by
      unfold whereClause
      have hj : hasSubL (condStr ⟨"users", "age", ">", String.mk d⟩).data
          (joinSep " AND\n    "
            (List.map condStr
              [⟨"users", "age", "=", String.mk d⟩, ⟨"users", "age", ">", String.mk d⟩,
               ⟨"users", "age", "=", String.mk d⟩, ⟨"users", "age", ">", String.mk d⟩])).data =
          true :=
        hasSub_joinSep _ _ _ (by simp)
      rw [strDataAppend]
      exact hasSubL_append_left _ _ _ (hasSubL_trans _ _ _ hsub2 hj)
    refine ⟨{ select := buildSelect (analyzeQuery q10)
                (identifySchemaElements (initQueryGPT schemaUsersAge) q10).2
              fromTables := (identifySchemaElements (initQueryGPT schemaUsersAge) q10).1
              whereConds :=
                [⟨"users", "age", "=", String.mk d⟩, ⟨"users", "age", ">", String.mk d⟩,
                 ⟨"users", "age", "=", String.mk d⟩, ⟨"users", "age", ">", String.mk d⟩]
              groupBy := buildGroupBy (analyzeQuery q10)
                (identifySchemaElements (initQueryGPT schemaUsersAge) q10).2
                (buildSelect (analyzeQuery q10)
                  (identifySchemaElements (initQueryGPT schemaUsersAge) q10).2)
              orderBy := buildOrderBy (analyzeQuery q10)
                (buildSelect (analyzeQuery q10)
                  (identifySchemaElements (initQueryGPT schemaUsersAge) q10).2)
              limit :=
                if (analyzeQuery q10).hasLimit then
                  match (analyzeQuery q10).limitValue with
                  | some v => if v = 0 then none else some v
                  | none => none
                else none }, ?_, rfl, ?_, ?_⟩
    · show planOf now (initQueryGPT schemaUsersAge) q10 = _
      simp only [planOf]
      exact hdet
    · exact hasSubL_trans _ _ _ hin1
        (generateSql_sub_of_part _ "SELECT" _ _ (where_part_mem _ _ (by simp)))
    · exact hasSubL_trans _ _ _ hin2
        (generateSql_sub_of_part _ "SELECT" _ _ (where_part_mem _ _ (by simp)))

/-- Witness for C10 at the concrete value 30. -/
theorem claim_C10_witness :
    extractCondsForCol "2024-01-01" (lowerStr ("users age greater than " ++ String.mk ['3', '0']))
      none ⟨"users", "age", "integer"⟩ =
      .ok (none, [⟨"users", "age", "=", String.mk ['3', '0']⟩,
                  ⟨"users", "age", ">", String.mk ['3', '0']⟩]) ∧
    ∃ comps,
      planOf "2024-01-01" (initQueryGPT schemaUsersAge)
          ("users age greater than " ++ String.mk ['3', '0']) = .ok ("SELECT", comps) ∧
      comps.whereConds =
        [⟨"users", "age", "=", String.mk ['3', '0']⟩, ⟨"users", "age", ">", String.mk ['3', '0']⟩,
         ⟨"users", "age", "=", String.mk ['3', '0']⟩,
         ⟨"users", "age", ">", String.mk ['3', '0']⟩] ∧
      hasSub (generateSql (initQueryGPT schemaUsersAge) "SELECT" comps)
        ("age = " ++ String.mk ['3', '0']) = true ∧
      hasSub (generateSql (initQueryGPT schemaUsersAge) "SELECT" comps)
        ("age > " ++ String.mk ['3', '0']) = true :=
  claim_C10_greater_than_double_condition "2024-01-01" ['3', '0'] (by decide) (by decide)
